import Mathlib

/-!
Shallow embedding of the pray-calc-ml optimization core: the Meeus-style
solar ephemeris (src/solar.ts), the dawn/dusk predictor (src/predict.ts),
the fixed-angle scorer (src/score.ts) and the golden-section angle
calibrator (src/calibrate.ts).  JavaScript numbers are modelled as real
numbers; the NaN "no crossing" sentinel is modelled as `Option.none`;
`throw` is modelled as `Except.error`.
-/

open Real

namespace PrayCalcML

/-- Calendar date as used by the library (civil year, 1-based month, day).
`predictFajr` and `predictIsha` normalize a JS `Date` to UTC noon of its
civil date before taking the Julian day number, so the civil triple is all
that matters. -/
structure ObsDate where
  year : Int
  month : Int
  day : Int
deriving DecidableEq

/-- Julian Day Number for a date at UT noon (Fliegel-Van Flandern), from
`jdn` in src/solar.ts.  `Math.floor` division on integer operands is
`Int.fdiv`. -/
def jdn (date : ObsDate) : Int :=
  let a := Int.fdiv (14 - date.month) 12
  let yr := date.year + 4800 - a
  let mo := date.month + 12 * a - 3
  date.day + Int.fdiv (153 * mo + 2) 5 + 365 * yr + Int.fdiv yr 4 - Int.fdiv yr 100 +
    Int.fdiv yr 400 - 32045

/-- JavaScript `%` on numbers: remainder truncated toward zero. -/
noncomputable def jsRem (a b : ℝ) : ℝ :=
  a - b * (if 0 ≤ a / b then ((⌊a / b⌋ : Int) : ℝ) else ((⌈a / b⌉ : Int) : ℝ))

/-- Solar position data: declination in radians and equation of time in
hours (positive means the sun transits early). -/
structure SolarData where
  declRad : ℝ
  eqtHours : ℝ

/-- Centuries since J2000, the binding `T` of `solar` in src/solar.ts. -/
noncomputable def solarT (jd : ℝ) : ℝ := (jd - 2451545.0) / 36525.0

/-- Mean solar longitude (degrees, wrapped), the binding `L0`. -/
noncomputable def solarL0 (jd : ℝ) : ℝ :=
  jsRem (280.46646 + solarT jd * (36000.76983 + solarT jd * 0.0003032)) 360

/-- Mean solar anomaly (degrees, wrapped), the binding `M`. -/
noncomputable def solarM (jd : ℝ) : ℝ :=
  jsRem (357.52911 + solarT jd * (35999.05029 - solarT jd * 0.0001537)) 360

/-- Mean anomaly in radians, the binding `Mrad`. -/
noncomputable def solarMrad (jd : ℝ) : ℝ := solarM jd * π / 180

/-- Equation of center, the binding `C`. -/
noncomputable def solarC (jd : ℝ) : ℝ :=
  Real.sin (solarMrad jd) * (1.914602 - solarT jd * (0.004817 + 0.000014 * solarT jd)) +
    Real.sin (2 * solarMrad jd) * (0.019993 - 0.000101 * solarT jd) +
    Real.sin (3 * solarMrad jd) * 0.000289

/-- Longitude of the ascending lunar node (degrees), the binding `omega`. -/
noncomputable def solarOmega (jd : ℝ) : ℝ := 125.04 - 1934.136 * solarT jd

/-- Apparent solar longitude (degrees), the binding `lambda` applied to
`sunLon = L0 + C`. -/
noncomputable def solarLambda (jd : ℝ) : ℝ :=
  solarL0 jd + solarC jd - 0.00569 - 0.00478 * Real.sin (solarOmega jd * π / 180)

/-- Mean obliquity of the ecliptic (degrees), the binding `eps0`. -/
noncomputable def solarEps0 (jd : ℝ) : ℝ :=
  23 + 26 / 60 + 21.448 / 3600 -
    solarT jd * (46.8150 / 3600 + solarT jd * (0.00059 / 3600 - solarT jd * 0.001813 / 3600))

/-- Corrected obliquity (degrees), the binding `eps`. -/
noncomputable def solarEps (jd : ℝ) : ℝ :=
  solarEps0 jd + 0.00256 * Real.cos (solarOmega jd * π / 180)

/-- Equation of time in minutes, the binding `eqtMin` (with
`y = tan(epsRad/2)^2` and `L0rad = L0*pi/180` inlined). -/
noncomputable def solarEqtMin (jd : ℝ) : ℝ :=
  (4 / π) * (Real.tan (solarEps jd * π / 180 / 2) ^ 2 * Real.sin (2 * (solarL0 jd * π / 180)) -
    2 * Real.sin (solarMrad jd) +
    4 * Real.sin (solarMrad jd) * Real.tan (solarEps jd * π / 180 / 2) ^ 2 *
      Real.cos (2 * (solarL0 jd * π / 180)) -
    0.5 * Real.tan (solarEps jd * π / 180 / 2) ^ 2 * Real.tan (solarEps jd * π / 180 / 2) ^ 2 *
      Real.sin (4 * (solarL0 jd * π / 180)) -
    1.25 * Real.sin (2 * solarMrad jd)) * (180 / π)

/-- Jean Meeus low-precision solar declination and equation of time for a
given Julian day number, from `solar` in src/solar.ts; the local `const`
bindings of the source are the named `solar*` definitions above. -/
noncomputable def solar (jd : ℝ) : SolarData :=
  ⟨Real.arcsin (Real.sin (solarEps jd * π / 180) * Real.sin (solarLambda jd * π / 180)),
    solarEqtMin jd / 60⟩

/-- Cosine of the hour angle at which the sun reaches altitude `altDeg`
(degrees), the quotient computed inside `horizonCrossing` in
src/solar.ts. -/
noncomputable def cosHof (jd lat altDeg : ℝ) : ℝ :=
  (Real.sin (altDeg * π / 180) - Real.sin (lat * π / 180) * Real.sin (solar jd).declRad) /
    (Real.cos (lat * π / 180) * Real.cos (solar jd).declRad)

/-- Local clock times (fractional hours) at which the sun reaches altitude
`altDeg`, from `horizonCrossing` in src/solar.ts; `none` models the
`[NaN, NaN]` polar day/night sentinel. -/
noncomputable def horizonCrossing (jd lat lng tz altDeg : ℝ) : Option (ℝ × ℝ) :=
  let cosH := cosHof jd lat altDeg
  if cosH < -1 ∨ cosH > 1 then none
  else
    let H := Real.arccos cosH * 180 / π
    let noon := 12 - (solar jd).eqtHours - lng / 15 + tz
    some (noon - H / 15, noon + H / 15)

/-- Predicted Fajr (dawn) time for a positive depression angle, from
`predictFajr` in src/predict.ts: the rise component of the crossing at
altitude `-angle`. -/
noncomputable def predictFajr (date : ObsDate) (lat lng tz fajrAngle : ℝ) : Option ℝ :=
  (horizonCrossing ((jdn date : Int) : ℝ) lat lng tz (-fajrAngle)).map Prod.fst

/-- Predicted Isha (dusk) time for a positive depression angle, from
`predictIsha` in src/predict.ts: the set component of the crossing at
altitude `-angle`. -/
noncomputable def predictIsha (date : ObsDate) (lat lng tz ishaAngle : ℝ) : Option ℝ :=
  (horizonCrossing ((jdn date : Int) : ℝ) lat lng tz (-ishaAngle)).map Prod.snd

/-- One observed prayer-time record, from `Observation` in src/types.ts.
Times are fractional local hours; an absent optional field is `none`. -/
structure Observation where
  date : ObsDate
  lat : ℝ
  lng : ℝ
  tz : ℝ
  fajr : Option ℝ := none
  isha : Option ℝ := none
  weight : Option ℝ := none

/-- Per-observation residual record (minutes); `none` marks a prayer that
contributed nothing, mirroring the `null` entries in the TS output. -/
structure ResidualEntry where
  fajrMin : Option ℝ
  ishaMin : Option ℝ

/-- Residual in minutes for the Fajr component of one observation at a
candidate angle: `none` when the observed time is absent or the
prediction is the non-finite sentinel, exactly the guarded computation in
src/score.ts and src/calibrate.ts. -/
noncomputable def fajrResidual (o : Observation) (fajrAngle : ℝ) : Option ℝ :=
  match o.fajr with
  | none => none
  | some t =>
    match predictFajr o.date o.lat o.lng o.tz fajrAngle with
    | none => none
    | some pred => some ((pred - t) * 60)

/-- Residual in minutes for the Isha component of one observation at a
candidate angle; symmetric to `fajrResidual`. -/
noncomputable def ishaResidual (o : Observation) (ishaAngle : ℝ) : Option ℝ :=
  match o.isha with
  | none => none
  | some t =>
    match predictIsha o.date o.lat o.lng o.tz ishaAngle with
    | none => none
    | some pred => some ((pred - t) * 60)

/-- Accumulator threaded through the single pass of `scoreAngles`. -/
structure ScoreAcc where
  totalWeightedSS : ℝ := 0
  totalWeight : ℝ := 0
  fajrWeightedBias : ℝ := 0
  fajrWeightCount : ℝ := 0
  ishaWeightedBias : ℝ := 0
  ishaWeightCount : ℝ := 0
  residuals : List ResidualEntry := []

/-- One step of the `scoreAngles` pass over the observation list, from
src/score.ts: accumulate the weighted statistics for each present, finite
prayer and append the (optional) residual pair. -/
noncomputable def scoreStep (fajrAngle ishaAngle : ℝ) (acc : ScoreAcc) (o : Observation) :
    ScoreAcc :=
  let w := o.weight.getD 1
  let fm := fajrResidual o fajrAngle
  let im := ishaResidual o ishaAngle
  let acc1 :=
    match fm with
    | none => acc
    | some r =>
      { acc with
        totalWeightedSS := acc.totalWeightedSS + w * r * r
        totalWeight := acc.totalWeight + w
        fajrWeightedBias := acc.fajrWeightedBias + w * r
        fajrWeightCount := acc.fajrWeightCount + w }
  let acc2 :=
    match im with
    | none => acc1
    | some r =>
      { acc1 with
        totalWeightedSS := acc1.totalWeightedSS + w * r * r
        totalWeight := acc1.totalWeight + w
        ishaWeightedBias := acc1.ishaWeightedBias + w * r
        ishaWeightCount := acc1.ishaWeightCount + w }
  { acc2 with residuals := acc2.residuals ++ [⟨fm, im⟩] }

/-- Result of `scoreAngles`, from `ScoreResult` in src/score.ts. -/
structure ScoreResult where
  rmsMinutes : ℝ
  fajrBiasMinutes : ℝ
  ishaBiasMinutes : ℝ
  residuals : List ResidualEntry

/-- Evaluate fixed depression angles against observed prayer times, from
`scoreAngles` in src/score.ts. -/
noncomputable def scoreAngles (observations : List Observation) (fajrAngle ishaAngle : ℝ) :
    ScoreResult :=
  let acc := observations.foldl (scoreStep fajrAngle ishaAngle) ({} : ScoreAcc)
  { rmsMinutes :=
      if acc.totalWeight > 0 then Real.sqrt (acc.totalWeightedSS / acc.totalWeight) else 0
    fajrBiasMinutes :=
      if acc.fajrWeightCount > 0 then acc.fajrWeightedBias / acc.fajrWeightCount else 0
    ishaBiasMinutes :=
      if acc.ishaWeightCount > 0 then acc.ishaWeightedBias / acc.ishaWeightCount else 0
    residuals := acc.residuals }

/-- Golden ratio conjugate used by the search in src/calibrate.ts. -/
noncomputable def phi : ℝ := (Real.sqrt 5 - 1) / 2

/-- Loop of the golden-section search in src/calibrate.ts with the
iteration budget as fuel; the state is the bracket `[a, b]` and the two
interior points with their function values. -/
noncomputable def gsAux (f : ℝ → ℝ) (tol : ℝ) : Nat → ℝ → ℝ → ℝ → ℝ → ℝ → ℝ → ℝ
  | 0, a, b, _, _, _, _ => (a + b) / 2
  | n + 1, a, b, x1, x2, f1, f2 =>
    if b - a > tol then
      if f1 < f2 then
        gsAux f tol n a x2 (x2 - phi * (x2 - a)) x1 (f (x2 - phi * (x2 - a))) f1
      else
        gsAux f tol n x1 b x2 (x1 + phi * (b - x1)) f2 (f (x1 + phi * (b - x1)))
    else (a + b) / 2

/-- Golden-section search for the minimum of `f` on `[a, b]`, from
`goldenSection` in src/calibrate.ts. -/
noncomputable def goldenSection (f : ℝ → ℝ) (a b tol : ℝ) (maxIter : Nat) : ℝ :=
  gsAux f tol maxIter a b (b - phi * (b - a)) (a + phi * (b - a)) (f (b - phi * (b - a)))
    (f (a + phi * (b - a)))

/-- Calibrated angle pair, from `CalibratedAngles` in src/types.ts. -/
structure CalibratedAngles where
  fajrAngle : ℝ
  ishaAngle : ℝ

/-- Calibration report, from `CalibrationResult` in src/types.ts. -/
structure CalibrationResult where
  angles : CalibratedAngles
  rmsMinutes : ℝ
  observationCount : ℝ
  residuals : List ResidualEntry

/-- Options for `calibrateAngles`, from `CalibrationOptions` in
src/types.ts; an absent field is `none` and the destructuring defaults of
`calibrateAngles` apply. -/
structure CalibrationOptions where
  fajrAngle0 : Option ℝ := none
  ishaAngle0 : Option ℝ := none
  fajrMin : Option ℝ := none
  fajrMax : Option ℝ := none
  ishaMin : Option ℝ := none
  ishaMax : Option ℝ := none
  maxIter : Option Nat := none
  tol : Option ℝ := none

/-- Contribution of one observation to the `fajrLoss` closure of
`calibrateAngles` in src/calibrate.ts: zero for a skipped (absent or
non-finite) entry, else weight times squared residual minutes. -/
noncomputable def fajrTerm (angle : ℝ) (o : Observation) : ℝ :=
  match fajrResidual o angle with
  | none => 0
  | some d => o.weight.getD 1 * (d * d)

/-- Contribution of one observation to the `ishaLoss` closure of
`calibrateAngles`; symmetric to `fajrTerm`. -/
noncomputable def ishaTerm (angle : ℝ) (o : Observation) : ℝ :=
  match ishaResidual o angle with
  | none => 0
  | some d => o.weight.getD 1 * (d * d)

/-- Weighted sum of squared Fajr residuals at a candidate angle, the
`fajrLoss` closure of `calibrateAngles` over the Fajr subset. -/
noncomputable def fajrLoss (fajrObs : List Observation) (angle : ℝ) : ℝ :=
  fajrObs.foldl (fun wss o => wss + fajrTerm angle o) 0

/-- Weighted sum of squared Isha residuals at a candidate angle, the
`ishaLoss` closure of `calibrateAngles` over the Isha subset. -/
noncomputable def ishaLoss (ishaObs : List Observation) (angle : ℝ) : ℝ :=
  ishaObs.foldl (fun wss o => wss + ishaTerm angle o) 0

/-- Accumulator for the residual and RMS pass at the end of
`calibrateAngles`. -/
structure CalibAcc where
  totalWeightedSS : ℝ := 0
  totalWeight : ℝ := 0
  residuals : List ResidualEntry := []

/-- One step of the final residual pass of `calibrateAngles` in
src/calibrate.ts: accumulate weighted sum of squares and weight for each
present, finite prayer and append the (optional) residual pair. -/
noncomputable def calibStep (fajrAngle ishaAngle : ℝ) (acc : CalibAcc) (o : Observation) :
    CalibAcc :=
  let w := o.weight.getD 1
  let fm := fajrResidual o fajrAngle
  let im := ishaResidual o ishaAngle
  let acc1 :=
    match fm with
    | none => acc
    | some r =>
      { acc with
        totalWeightedSS := acc.totalWeightedSS + w * r * r
        totalWeight := acc.totalWeight + w }
  let acc2 :=
    match im with
    | none => acc1
    | some r =>
      { acc1 with
        totalWeightedSS := acc1.totalWeightedSS + w * r * r
        totalWeight := acc1.totalWeight + w }
  { acc2 with residuals := acc2.residuals ++ [⟨fm, im⟩] }

/-- Calibrate Fajr and Isha depression angles against observed data, from
`calibrateAngles` in src/calibrate.ts.  The insufficient-data `throw` is
modelled as `Except.error`. -/
noncomputable def calibrateAngles (observations : List Observation)
    (options : CalibrationOptions) : Except String CalibrationResult :=
  let fajrMinB := options.fajrMin.getD 10
  let fajrMaxB := options.fajrMax.getD 22
  let ishaMinB := options.ishaMin.getD 10
  let ishaMaxB := options.ishaMax.getD 22
  let maxIter := options.maxIter.getD 200
  let tol := options.tol.getD 1e-5
  let fajrObs := observations.filter fun o => o.fajr.isSome
  let ishaObs := observations.filter fun o => o.isha.isSome
  if fajrObs.length < 2 ∧ ishaObs.length < 2 then
    Except.error ("calibrateAngles: need at least 2 Fajr or 2 Isha observations (got Fajr=" ++
      toString fajrObs.length ++ ", Isha=" ++ toString ishaObs.length ++ ")")
  else
    let fajrAngle0 := options.fajrAngle0.getD 15
    let ishaAngle0 := options.ishaAngle0.getD 15
    let fajrAngle :=
      if 2 ≤ fajrObs.length then
        goldenSection (fajrLoss fajrObs) fajrMinB fajrMaxB tol maxIter
      else fajrAngle0
    let ishaAngle :=
      if 2 ≤ ishaObs.length then
        goldenSection (ishaLoss ishaObs) ishaMinB ishaMaxB tol maxIter
      else ishaAngle0
    let acc := observations.foldl (calibStep fajrAngle ishaAngle) ({} : CalibAcc)
    Except.ok
      { angles := ⟨fajrAngle, ishaAngle⟩
        rmsMinutes :=
          if acc.totalWeight > 0 then Real.sqrt (acc.totalWeightedSS / acc.totalWeight) else 0
        observationCount := ((fajrObs.length : ℝ) + (ishaObs.length : ℝ)) / 2
        residuals := acc.residuals }

/-- Horizon crossing written from the specification text: compute
`cos(H) = (sin(alt) - sin(lat)*sin(decl)) / (cos(lat)*cos(decl))`; if it
lies outside `[-1, 1]` return the no-crossing sentinel for both times,
otherwise `rise = noon - H/15` and `set = noon + H/15` with
`noon = 12 - eqtHours - lng/15 + tz`. -/
noncomputable def specHorizonCrossing (jd lat lng tz altDeg : ℝ) : Option (ℝ × ℝ) :=
  let decl := (solar jd).declRad
  let cosH := (Real.sin (altDeg * π / 180) - Real.sin (lat * π / 180) * Real.sin decl) /
    (Real.cos (lat * π / 180) * Real.cos decl)
  if ¬(-1 ≤ cosH ∧ cosH ≤ 1) then none
  else
    let H := Real.arccos cosH * 180 / π
    let noon := 12 - (solar jd).eqtHours - lng / 15 + tz
    some (noon - H / 15, noon + H / 15)

/-- Observation list with every weight multiplied by a constant (an absent
weight is the default 1 before scaling). -/
noncomputable def scaleWeights (c : ℝ) (observations : List Observation) : List Observation :=
  observations.map fun o => { o with weight := some (c * o.weight.getD 1) }

/-- Weight contributed to a weighted-count accumulator by one optional
residual: the observation weight when present, zero when skipped. -/
noncomputable def optW (x : Option ℝ) (w : ℝ) : ℝ :=
  match x with
  | none => 0
  | some _ => w

/-- Contribution of one optional residual to a weighted sum of squares. -/
noncomputable def optSS (x : Option ℝ) (w : ℝ) : ℝ :=
  match x with
  | none => 0
  | some r => w * r * r

/-- Contribution of one optional residual to a weighted bias sum. -/
noncomputable def optB (x : Option ℝ) (w : ℝ) : ℝ :=
  match x with
  | none => 0
  | some r => w * r

/-- Two dawn-only example observations (equator, prime meridian) used to
exercise the success path of `calibrateAngles`. -/
noncomputable def twoDawnObs : List Observation :=
  [{ date := ⟨2024, 1, 15⟩, lat := 0, lng := 0, tz := 0, fajr := some 5 },
    { date := ⟨2024, 1, 16⟩, lat := 0, lng := 0, tz := 0, fajr := some (51 / 10) }]

/-- Example observation carrying neither optional prayer time. -/
noncomputable def emptyTimesObs : Observation :=
  { date := ⟨2024, 1, 15⟩, lat := 0, lng := 0, tz := 0 }

/-- Options with an out-of-bounds dusk initial guess (5 degrees, below the
default lower bound of 10). -/
noncomputable def lowGuessOpts : CalibrationOptions :=
  ⟨none, some 5, none, none, none, none, none, none⟩

/-- Strict unimodality of a function on `[lo, hi]` with minimizer `m`:
strictly decreasing left of `m` and strictly increasing right of it. -/
def StrictUnimodalOn (f : ℝ → ℝ) (lo hi m : ℝ) : Prop :=
  (∀ x y, lo ≤ x → x < y → y ≤ m → f y < f x) ∧
    (∀ x y, m ≤ x → x < y → y ≤ hi → f x < f y)

/-- Rise component of the crossing for one observation at a depression
angle, as produced by `predictFajr` when the crossing exists. -/
noncomputable def riseTime (o : Observation) (a : ℝ) : ℝ :=
  12 - (solar ((jdn o.date : Int) : ℝ)).eqtHours - o.lng / 15 + o.tz -
    Real.arccos (cosHof ((jdn o.date : Int) : ℝ) o.lat (-a)) * 180 / π / 15

/-- Set component of the crossing for one observation at a depression
angle, as produced by `predictIsha` when the crossing exists. -/
noncomputable def setTime (o : Observation) (a : ℝ) : ℝ :=
  12 - (solar ((jdn o.date : Int) : ℝ)).eqtHours - o.lng / 15 + o.tz +
    Real.arccos (cosHof ((jdn o.date : Int) : ℝ) o.lat (-a)) * 180 / π / 15

/-- Synthetic dual observation generated by the predictor itself at angle
15 for the equator / prime meridian on 2024-01-15. -/
noncomputable def synthObs1 : Observation :=
  { date := ⟨2024, 1, 15⟩, lat := 0, lng := 0, tz := 0,
    fajr := predictFajr ⟨2024, 1, 15⟩ 0 0 0 15,
    isha := predictIsha ⟨2024, 1, 15⟩ 0 0 0 15 }

/-- Synthetic dual observation generated by the predictor itself at angle
15 for the equator / prime meridian on 2024-07-15. -/
noncomputable def synthObs2 : Observation :=
  { date := ⟨2024, 7, 15⟩, lat := 0, lng := 0, tz := 0,
    fajr := predictFajr ⟨2024, 7, 15⟩ 0 0 0 15,
    isha := predictIsha ⟨2024, 7, 15⟩ 0 0 0 15 }

/-- High-latitude observation record generated by the predictor at angle
15 at 85 degrees north in June, where the sun never reaches 15 degrees
below the horizon, so both generated times are the sentinel. -/
noncomputable def polarObs1 : Observation :=
  { date := ⟨2024, 6, 18⟩, lat := 85, lng := 0, tz := 0,
    fajr := predictFajr ⟨2024, 6, 18⟩ 85 0 0 15,
    isha := predictIsha ⟨2024, 6, 18⟩ 85 0 0 15 }

/-- Second high-latitude June record generated by the predictor at angle
15, three days later. -/
noncomputable def polarObs2 : Observation :=
  { date := ⟨2024, 6, 21⟩, lat := 85, lng := 0, tz := 0,
    fajr := predictFajr ⟨2024, 6, 21⟩ 85 0 0 15,
    isha := predictIsha ⟨2024, 6, 21⟩ 85 0 0 15 }

/-! ### Structural lemmas about the scorer and calibrator passes -/

lemma scoreStep_residuals (fa ia : ℝ) (acc : ScoreAcc) (o : Observation) :
    (scoreStep fa ia acc o).residuals =
      acc.residuals ++ [⟨fajrResidual o fa, ishaResidual o ia⟩] := by
  cases hf : fajrResidual o fa <;> cases hi : ishaResidual o ia <;>
    simp [scoreStep, hf, hi]

lemma scoreStep_totalWeight (fa ia : ℝ) (acc : ScoreAcc) (o : Observation) :
    (scoreStep fa ia acc o).totalWeight =
      acc.totalWeight + optW (fajrResidual o fa) (o.weight.getD 1) +
        optW (ishaResidual o ia) (o.weight.getD 1) := by
  cases hf : fajrResidual o fa <;> cases hi : ishaResidual o ia <;>
    simp [scoreStep, optW, hf, hi] <;> ring

lemma scoreStep_totalWeightedSS (fa ia : ℝ) (acc : ScoreAcc) (o : Observation) :
    (scoreStep fa ia acc o).totalWeightedSS =
      acc.totalWeightedSS + optSS (fajrResidual o fa) (o.weight.getD 1) +
        optSS (ishaResidual o ia) (o.weight.getD 1) := by
  cases hf : fajrResidual o fa <;> cases hi : ishaResidual o ia <;>
    simp [scoreStep, optSS, hf, hi] <;> ring

lemma scoreStep_fajrWeightCount (fa ia : ℝ) (acc : ScoreAcc) (o : Observation) :
    (scoreStep fa ia acc o).fajrWeightCount =
      acc.fajrWeightCount + optW (fajrResidual o fa) (o.weight.getD 1) := by
  cases hf : fajrResidual o fa <;> cases hi : ishaResidual o ia <;>
    simp [scoreStep, optW, hf, hi]

lemma scoreStep_fajrWeightedBias (fa ia : ℝ) (acc : ScoreAcc) (o : Observation) :
    (scoreStep fa ia acc o).fajrWeightedBias =
      acc.fajrWeightedBias + optB (fajrResidual o fa) (o.weight.getD 1) := by
  cases hf : fajrResidual o fa <;> cases hi : ishaResidual o ia <;>
    simp [scoreStep, optB, hf, hi]

lemma scoreStep_ishaWeightCount (fa ia : ℝ) (acc : ScoreAcc) (o : Observation) :
    (scoreStep fa ia acc o).ishaWeightCount =
      acc.ishaWeightCount + optW (ishaResidual o ia) (o.weight.getD 1) := by
  cases hf : fajrResidual o fa <;> cases hi : ishaResidual o ia <;>
    simp [scoreStep, optW, hf, hi]

lemma scoreStep_ishaWeightedBias (fa ia : ℝ) (acc : ScoreAcc) (o : Observation) :
    (scoreStep fa ia acc o).ishaWeightedBias =
      acc.ishaWeightedBias + optB (ishaResidual o ia) (o.weight.getD 1) := by
  cases hf : fajrResidual o fa <;> cases hi : ishaResidual o ia <;>
    simp [scoreStep, optB, hf, hi]

lemma score_foldl_residuals (fa ia : ℝ) (l : List Observation) (acc : ScoreAcc) :
    (l.foldl (scoreStep fa ia) acc).residuals =
      acc.residuals ++ l.map (fun o => ⟨fajrResidual o fa, ishaResidual o ia⟩) := by
  induction l generalizing acc with
  | nil => simp
  | cons o l ih => simp [ih, scoreStep_residuals]

lemma score_foldl_totalWeight (fa ia : ℝ) (l : List Observation) (acc : ScoreAcc) :
    (l.foldl (scoreStep fa ia) acc).totalWeight =
      acc.totalWeight + (l.map (fun o =>
        optW (fajrResidual o fa) (o.weight.getD 1) +
          optW (ishaResidual o ia) (o.weight.getD 1))).sum := by
  induction l generalizing acc with
  | nil => simp
  | cons o l ih => simp [ih, scoreStep_totalWeight]; ring

lemma score_foldl_fajrWeightCount (fa ia : ℝ) (l : List Observation) (acc : ScoreAcc) :
    (l.foldl (scoreStep fa ia) acc).fajrWeightCount =
      acc.fajrWeightCount +
        (l.map (fun o => optW (fajrResidual o fa) (o.weight.getD 1))).sum := by
  induction l generalizing acc with
  | nil => simp
  | cons o l ih => simp [ih, scoreStep_fajrWeightCount]; ring

lemma score_foldl_ishaWeightCount (fa ia : ℝ) (l : List Observation) (acc : ScoreAcc) :
    (l.foldl (scoreStep fa ia) acc).ishaWeightCount =
      acc.ishaWeightCount +
        (l.map (fun o => optW (ishaResidual o ia) (o.weight.getD 1))).sum := by
  induction l generalizing acc with
  | nil => simp
  | cons o l ih => simp [ih, scoreStep_ishaWeightCount]; ring

lemma calibStep_residuals (fa ia : ℝ) (acc : CalibAcc) (o : Observation) :
    (calibStep fa ia acc o).residuals =
      acc.residuals ++ [⟨fajrResidual o fa, ishaResidual o ia⟩] := by
  cases hf : fajrResidual o fa <;> cases hi : ishaResidual o ia <;>
    simp [calibStep, hf, hi]

lemma calibStep_totalWeight (fa ia : ℝ) (acc : CalibAcc) (o : Observation) :
    (calibStep fa ia acc o).totalWeight =
      acc.totalWeight + optW (fajrResidual o fa) (o.weight.getD 1) +
        optW (ishaResidual o ia) (o.weight.getD 1) := by
  cases hf : fajrResidual o fa <;> cases hi : ishaResidual o ia <;>
    simp [calibStep, optW, hf, hi] <;> ring

lemma calibStep_totalWeightedSS (fa ia : ℝ) (acc : CalibAcc) (o : Observation) :
    (calibStep fa ia acc o).totalWeightedSS =
      acc.totalWeightedSS + optSS (fajrResidual o fa) (o.weight.getD 1) +
        optSS (ishaResidual o ia) (o.weight.getD 1) := by
  cases hf : fajrResidual o fa <;> cases hi : ishaResidual o ia <;>
    simp [calibStep, optSS, hf, hi] <;> ring

lemma calib_foldl_residuals (fa ia : ℝ) (l : List Observation) (acc : CalibAcc) :
    (l.foldl (calibStep fa ia) acc).residuals =
      acc.residuals ++ l.map (fun o => ⟨fajrResidual o fa, ishaResidual o ia⟩) := by
  induction l generalizing acc with
  | nil => simp
  | cons o l ih => simp [ih, calibStep_residuals]

/-- Error branch of `calibrateAngles`, taken exactly when both filtered
subsets have fewer than two entries. -/
lemma calibrateAngles_error_eq (obs : List Observation) (opts : CalibrationOptions)
    (h : (obs.filter fun o => o.fajr.isSome).length < 2 ∧
      (obs.filter fun o => o.isha.isSome).length < 2) :
    calibrateAngles obs opts =
      Except.error ("calibrateAngles: need at least 2 Fajr or 2 Isha observations (got Fajr=" ++
        toString (obs.filter fun o => o.fajr.isSome).length ++ ", Isha=" ++
        toString (obs.filter fun o => o.isha.isSome).length ++ ")") := by
  simp only [calibrateAngles]
  rw [if_pos h]

/-- Success branch of `calibrateAngles`, spelled out. -/
lemma calibrateAngles_ok_eq (obs : List Observation) (opts : CalibrationOptions)
    (h : ¬((obs.filter fun o => o.fajr.isSome).length < 2 ∧
      (obs.filter fun o => o.isha.isSome).length < 2)) :
    calibrateAngles obs opts =
      Except.ok
        { angles :=
            ⟨if 2 ≤ (obs.filter fun o => o.fajr.isSome).length then
                goldenSection (fajrLoss (obs.filter fun o => o.fajr.isSome))
                  (opts.fajrMin.getD 10) (opts.fajrMax.getD 22) (opts.tol.getD 1e-5)
                  (opts.maxIter.getD 200)
              else opts.fajrAngle0.getD 15,
              if 2 ≤ (obs.filter fun o => o.isha.isSome).length then
                goldenSection (ishaLoss (obs.filter fun o => o.isha.isSome))
                  (opts.ishaMin.getD 10) (opts.ishaMax.getD 22) (opts.tol.getD 1e-5)
                  (opts.maxIter.getD 200)
              else opts.ishaAngle0.getD 15⟩
          rmsMinutes :=
            (fun acc : CalibAcc =>
              if acc.totalWeight > 0 then Real.sqrt (acc.totalWeightedSS / acc.totalWeight)
              else 0)
              (obs.foldl
                (calibStep
                  (if 2 ≤ (obs.filter fun o => o.fajr.isSome).length then
                      goldenSection (fajrLoss (obs.filter fun o => o.fajr.isSome))
                        (opts.fajrMin.getD 10) (opts.fajrMax.getD 22) (opts.tol.getD 1e-5)
                        (opts.maxIter.getD 200)
                    else opts.fajrAngle0.getD 15)
                  (if 2 ≤ (obs.filter fun o => o.isha.isSome).length then
                      goldenSection (ishaLoss (obs.filter fun o => o.isha.isSome))
                        (opts.ishaMin.getD 10) (opts.ishaMax.getD 22) (opts.tol.getD 1e-5)
                        (opts.maxIter.getD 200)
                    else opts.ishaAngle0.getD 15))
                ({} : CalibAcc))
          observationCount :=
            (((obs.filter fun o => o.fajr.isSome).length : ℝ) +
              ((obs.filter fun o => o.isha.isSome).length : ℝ)) / 2
          residuals :=
            (obs.foldl
              (calibStep
                (if 2 ≤ (obs.filter fun o => o.fajr.isSome).length then
                    goldenSection (fajrLoss (obs.filter fun o => o.fajr.isSome))
                      (opts.fajrMin.getD 10) (opts.fajrMax.getD 22) (opts.tol.getD 1e-5)
                      (opts.maxIter.getD 200)
                  else opts.fajrAngle0.getD 15)
                (if 2 ≤ (obs.filter fun o => o.isha.isSome).length then
                    goldenSection (ishaLoss (obs.filter fun o => o.isha.isSome))
                      (opts.ishaMin.getD 10) (opts.ishaMax.getD 22) (opts.tol.getD 1e-5)
                      (opts.maxIter.getD 200)
                  else opts.ishaAngle0.getD 15))
              ({} : CalibAcc)).residuals } := by
  simp only [calibrateAngles]
  rw [if_neg h]

/-! ### Claim theorems: ephemeris shape and scorer conventions -/

/-- C3: for every JDN, latitude, longitude, UTC offset and target
altitude, `horizonCrossing` computes the declination/latitude/altitude
quotient `cos(H)`, returns the no-crossing sentinel for both times when it
lies outside `[-1, 1]`, and otherwise returns
`rise = noon - H/15`, `set = noon + H/15` with
`noon = 12 - eqtHours - lng/15 + tz`: it coincides with the crossing
function transcribed from the specification text. -/
theorem horizonCrossing_matches_spec (jd lat lng tz altDeg : ℝ) :
    horizonCrossing jd lat lng tz altDeg = specHorizonCrossing jd lat lng tz altDeg := by
  simp only [horizonCrossing, specHorizonCrossing, cosHof]
  have hcond : ∀ c : ℝ, (c < -1 ∨ c > 1) ↔ ¬(-1 ≤ c ∧ c ≤ 1) := by
    intro c
    constructor
    · rintro (hl | hr) ⟨h1, h2⟩
      · exact absurd h1 (not_le.mpr hl)
      · exact absurd h2 (not_le.mpr hr)
    · intro hn
      rcases not_and_or.mp hn with hl | hr
      · exact Or.inl (not_le.mp hl)
      · exact Or.inr (not_le.mp hr)
  rw [if_congr (hcond _) rfl rfl]

/-- C7: the scorer degrades gracefully instead of failing: zero total
accumulated weight forces RMS = 0, a prayer with no finite contributed
residual gets bias 0, and the empty input yields the all-zero result with
an empty residual list. -/
theorem scoreAngles_zero_weight_conventions (obs : List Observation) (fa ia : ℝ) :
    ((obs.foldl (scoreStep fa ia) ({} : ScoreAcc)).totalWeight = 0 →
      (scoreAngles obs fa ia).rmsMinutes = 0) ∧
    ((∀ o ∈ obs, fajrResidual o fa = none) → (scoreAngles obs fa ia).fajrBiasMinutes = 0) ∧
    ((∀ o ∈ obs, ishaResidual o ia = none) → (scoreAngles obs fa ia).ishaBiasMinutes = 0) ∧
    scoreAngles [] fa ia = ⟨0, 0, 0, []⟩ := by
  refine ⟨?_, ?_, ?_, ?_⟩
  · intro hw
    simp only [scoreAngles, hw]
    simp
  · intro hall
    have hcount : (obs.foldl (scoreStep fa ia) ({} : ScoreAcc)).fajrWeightCount = 0 := by
      rw [score_foldl_fajrWeightCount]
      have : ∀ x ∈ obs.map (fun o => optW (fajrResidual o fa) (o.weight.getD 1)), x = 0 := by
        intro x hx
        rcases List.mem_map.mp hx with ⟨o, ho, rfl⟩
        rw [hall o ho]
        rfl
      rw [List.sum_eq_zero this]
      simp [ScoreAcc.fajrWeightCount]
    simp only [scoreAngles, hcount]
    simp
  · intro hall
    have hcount : (obs.foldl (scoreStep fa ia) ({} : ScoreAcc)).ishaWeightCount = 0 := by
      rw [score_foldl_ishaWeightCount]
      have : ∀ x ∈ obs.map (fun o => optW (ishaResidual o ia) (o.weight.getD 1)), x = 0 := by
        intro x hx
        rcases List.mem_map.mp hx with ⟨o, ho, rfl⟩
        rw [hall o ho]
        rfl
      rw [List.sum_eq_zero this]
      simp [ScoreAcc.ishaWeightCount]
    simp only [scoreAngles, hcount]
    simp
  · simp [scoreAngles]

/-- Witness for C7 at the concrete empty input. -/
theorem scoreAngles_zero_weight_conventions_witness :
    (([] : List Observation).foldl (scoreStep 15 15) ({} : ScoreAcc)).totalWeight = 0 ∧
    (scoreAngles [] 15 15).rmsMinutes = 0 ∧ (scoreAngles [] 15 15).fajrBiasMinutes = 0 ∧
    (scoreAngles [] 15 15).ishaBiasMinutes = 0 ∧ scoreAngles [] 15 15 = ⟨0, 0, 0, []⟩ := by
  have h := scoreAngles_zero_weight_conventions [] 15 15
  exact ⟨rfl, h.1 rfl, h.2.1 (by intro o ho; cases ho), h.2.2.1 (by intro o ho; cases ho),
    h.2.2.2⟩

/-- C2: `calibrateAngles` raises the insufficient-data error iff both the
dawn subset and the dusk subset have fewer than two members; otherwise it
returns normally, fitting each subset with at least two members by
golden-section search and returning the operator-supplied initial guess
unchanged for a subset with fewer than two members. -/
theorem calibrate_insufficient_data_iff (obs : List Observation) (opts : CalibrationOptions) :
    ((∃ e, calibrateAngles obs opts = Except.error e) ↔
      ((obs.filter fun o => o.fajr.isSome).length < 2 ∧
        (obs.filter fun o => o.isha.isSome).length < 2)) ∧
    (¬((obs.filter fun o => o.fajr.isSome).length < 2 ∧
        (obs.filter fun o => o.isha.isSome).length < 2) →
      ∃ r, calibrateAngles obs opts = Except.ok r) ∧
    (∀ r, calibrateAngles obs opts = Except.ok r →
      (2 ≤ (obs.filter fun o => o.fajr.isSome).length →
        r.angles.fajrAngle = goldenSection (fajrLoss (obs.filter fun o => o.fajr.isSome))
          (opts.fajrMin.getD 10) (opts.fajrMax.getD 22) (opts.tol.getD 1e-5)
          (opts.maxIter.getD 200)) ∧
      ((obs.filter fun o => o.fajr.isSome).length < 2 →
        r.angles.fajrAngle = opts.fajrAngle0.getD 15) ∧
      (2 ≤ (obs.filter fun o => o.isha.isSome).length →
        r.angles.ishaAngle = goldenSection (ishaLoss (obs.filter fun o => o.isha.isSome))
          (opts.ishaMin.getD 10) (opts.ishaMax.getD 22) (opts.tol.getD 1e-5)
          (opts.maxIter.getD 200)) ∧
      ((obs.filter fun o => o.isha.isSome).length < 2 →
        r.angles.ishaAngle = opts.ishaAngle0.getD 15)) := by
  by_cases hc : ((obs.filter fun o => o.fajr.isSome).length < 2 ∧
      (obs.filter fun o => o.isha.isSome).length < 2)
  · have herr := calibrateAngles_error_eq obs opts hc
    refine ⟨⟨fun _ => hc, fun _ => ⟨_, herr⟩⟩, fun hn => absurd hc hn, ?_⟩
    intro r hr
    rw [herr] at hr
    cases hr
  · have hok := calibrateAngles_ok_eq obs opts hc
    refine ⟨⟨?_, fun h => absurd h hc⟩, fun _ => ⟨_, hok⟩, ?_⟩
    · rintro ⟨e, he⟩
      rw [hok] at he
      cases he
    · intro r hr
      have hrr := hok.symm.trans hr
      have hreq := Except.ok.inj hrr
      subst hreq
      refine ⟨?_, ?_, ?_, ?_⟩
      · intro h2
        dsimp only
        rw [if_pos h2]
      · intro hlt
        dsimp only
        rw [if_neg (by omega)]
      · intro h2
        dsimp only
        rw [if_pos h2]
      · intro hlt
        dsimp only
        rw [if_neg (by omega)]

/-- Witness for C2: two dawn-only observations plus default options take
the success path with the dusk angle left at the initial guess. -/
theorem calibrate_insufficient_data_iff_witness :
    (¬(((twoDawnObs).filter fun o => o.fajr.isSome).length < 2 ∧
        ((twoDawnObs).filter fun o => o.isha.isSome).length < 2)) ∧
    (∃ r, calibrateAngles twoDawnObs
      (⟨none, none, none, none, none, none, none, none⟩ : CalibrationOptions) = Except.ok r) := by
  have hne : ¬(((twoDawnObs).filter fun o => o.fajr.isSome).length < 2 ∧
      ((twoDawnObs).filter fun o => o.isha.isSome).length < 2) := by
    intro h
    have := h.1
    simp [twoDawnObs] at this
  exact ⟨hne, (calibrate_insufficient_data_iff twoDawnObs
    (⟨none, none, none, none, none, none, none, none⟩ : CalibrationOptions)).2.1 hne⟩

/-- C9: the residual list of both `scoreAngles` and a successful
`calibrateAngles` call has exactly one entry per input observation,
positionally aligned: entry `i` holds `(predicted - observed) * 60`
minutes for a prayer with a present time and finite prediction and `none`
otherwise; an observation with neither time is echoed as a double-`none`
entry and leaves every aggregate accumulator unchanged. -/
theorem residuals_positionally_aligned (obs : List Observation) (fa ia : ℝ)
    (opts : CalibrationOptions) :
    ((scoreAngles obs fa ia).residuals =
        obs.map (fun o => ⟨fajrResidual o fa, ishaResidual o ia⟩) ∧
      (scoreAngles obs fa ia).residuals.length = obs.length) ∧
    (∀ (acc : ScoreAcc) (o : Observation), o.fajr = none → o.isha = none →
      scoreStep fa ia acc o = { acc with residuals := acc.residuals ++ [⟨none, none⟩] }) ∧
    (∀ (acc : CalibAcc) (o : Observation), o.fajr = none → o.isha = none →
      calibStep fa ia acc o = { acc with residuals := acc.residuals ++ [⟨none, none⟩] }) ∧
    (¬((obs.filter fun o => o.fajr.isSome).length < 2 ∧
        (obs.filter fun o => o.isha.isSome).length < 2) →
      ∃ r, calibrateAngles obs opts = Except.ok r ∧
        r.residuals = obs.map (fun o =>
          ⟨fajrResidual o r.angles.fajrAngle, ishaResidual o r.angles.ishaAngle⟩) ∧
        r.residuals.length = obs.length) := by
  refine ⟨⟨?_, ?_⟩, ?_, ?_, ?_⟩
  · simp only [scoreAngles]
    rw [score_foldl_residuals]
    simp
  · simp only [scoreAngles]
    rw [score_foldl_residuals]
    simp
  · intro acc o hf hi
    have hfr : fajrResidual o fa = none := by simp [fajrResidual, hf]
    have hir : ishaResidual o ia = none := by simp [ishaResidual, hi]
    simp [scoreStep, hfr, hir]
  · intro acc o hf hi
    have hfr : fajrResidual o fa = none := by simp [fajrResidual, hf]
    have hir : ishaResidual o ia = none := by simp [ishaResidual, hi]
    simp [calibStep, hfr, hir]
  · intro hc
    refine ⟨_, calibrateAngles_ok_eq obs opts hc, ?_, ?_⟩
    · dsimp only
      rw [calib_foldl_residuals]
      simp
    · dsimp only
      rw [calib_foldl_residuals]
      simp

/-- Witness for C9: the no-op step at an observation with neither time,
and the aligned residual list for a concrete successful calibration. -/
theorem residuals_positionally_aligned_witness :
    (emptyTimesObs.fajr = none ∧ emptyTimesObs.isha = none ∧
      ¬(((twoDawnObs).filter fun o => o.fajr.isSome).length < 2 ∧
        ((twoDawnObs).filter fun o => o.isha.isSome).length < 2)) ∧
    (scoreStep 15 15 ({} : ScoreAcc) emptyTimesObs =
        { ({} : ScoreAcc) with residuals := ({} : ScoreAcc).residuals ++ [⟨none, none⟩] } ∧
      (∃ r, calibrateAngles twoDawnObs
          (⟨none, none, none, none, none, none, none, none⟩ : CalibrationOptions) =
            Except.ok r ∧
        r.residuals = twoDawnObs.map (fun o =>
          ⟨fajrResidual o r.angles.fajrAngle, ishaResidual o r.angles.ishaAngle⟩) ∧
        r.residuals.length = twoDawnObs.length)) := by
  have hne : ¬(((twoDawnObs).filter fun o => o.fajr.isSome).length < 2 ∧
      ((twoDawnObs).filter fun o => o.isha.isSome).length < 2) := by
    intro h
    have := h.1
    simp [twoDawnObs] at this
  have h := residuals_positionally_aligned twoDawnObs 15 15
    (⟨none, none, none, none, none, none, none, none⟩ : CalibrationOptions)
  exact ⟨⟨rfl, rfl, hne⟩, h.2.1 ({} : ScoreAcc) emptyTimesObs rfl rfl, h.2.2.2 hne⟩

/-! ### Weight scaling -/

lemma foldl_add_eq_sum {α : Type} (g : α → ℝ) (l : List α) (init : ℝ) :
    l.foldl (fun acc o => acc + g o) init = init + (l.map g).sum := by
  induction l generalizing init with
  | nil => simp
  | cons o l ih => simp [ih]; ring

lemma scaleWeights_filter_fajr (c : ℝ) (obs : List Observation) :
    (scaleWeights c obs).filter (fun o => o.fajr.isSome) =
      scaleWeights c (obs.filter fun o => o.fajr.isSome) := by
  simp only [scaleWeights, List.filter_map]
  rfl

lemma scaleWeights_filter_isha (c : ℝ) (obs : List Observation) :
    (scaleWeights c obs).filter (fun o => o.isha.isSome) =
      scaleWeights c (obs.filter fun o => o.isha.isSome) := by
  simp only [scaleWeights, List.filter_map]
  rfl

lemma scaleWeights_length (c : ℝ) (obs : List Observation) :
    (scaleWeights c obs).length = obs.length := by
  simp [scaleWeights]

lemma fajrTerm_scale (angle c : ℝ) (o : Observation) :
    fajrTerm angle { o with weight := some (c * o.weight.getD 1) } = c * fajrTerm angle o := by
  have hres : fajrResidual { o with weight := some (c * o.weight.getD 1) } angle =
      fajrResidual o angle := rfl
  unfold fajrTerm
  rw [hres]
  cases fajrResidual o angle with
  | none => simp
  | some d => simp; ring

lemma ishaTerm_scale (angle c : ℝ) (o : Observation) :
    ishaTerm angle { o with weight := some (c * o.weight.getD 1) } = c * ishaTerm angle o := by
  have hres : ishaResidual { o with weight := some (c * o.weight.getD 1) } angle =
      ishaResidual o angle := rfl
  unfold ishaTerm
  rw [hres]
  cases ishaResidual o angle with
  | none => simp
  | some d => simp; ring

lemma scaleWeights_cons (c : ℝ) (o : Observation) (l : List Observation) :
    scaleWeights c (o :: l) =
      { o with weight := some (c * o.weight.getD 1) } :: scaleWeights c l := rfl

lemma fajrLoss_scale (c : ℝ) (l : List Observation) (angle : ℝ) :
    fajrLoss (scaleWeights c l) angle = c * fajrLoss l angle := by
  have key : ∀ (l : List Observation) (init : ℝ),
      (scaleWeights c l).foldl (fun wss o => wss + fajrTerm angle o) (c * init) =
        c * l.foldl (fun wss o => wss + fajrTerm angle o) init := by
    intro l
    induction l with
    | nil => intro init; simp [scaleWeights]
    | cons o l ih =>
      intro init
      rw [scaleWeights_cons, List.foldl_cons, List.foldl_cons]
      have h1 : c * init + fajrTerm angle { o with weight := some (c * o.weight.getD 1) } =
          c * (init + fajrTerm angle o) := by
        rw [fajrTerm_scale]
        ring
      rw [h1]
      exact ih (init + fajrTerm angle o)
  have h0 := key l 0
  rw [mul_zero] at h0
  exact h0

lemma ishaLoss_scale (c : ℝ) (l : List Observation) (angle : ℝ) :
    ishaLoss (scaleWeights c l) angle = c * ishaLoss l angle := by
  have key : ∀ (l : List Observation) (init : ℝ),
      (scaleWeights c l).foldl (fun wss o => wss + ishaTerm angle o) (c * init) =
        c * l.foldl (fun wss o => wss + ishaTerm angle o) init := by
    intro l
    induction l with
    | nil => intro init; simp [scaleWeights]
    | cons o l ih =>
      intro init
      rw [scaleWeights_cons, List.foldl_cons, List.foldl_cons]
      have h1 : c * init + ishaTerm angle { o with weight := some (c * o.weight.getD 1) } =
          c * (init + ishaTerm angle o) := by
        rw [ishaTerm_scale]
        ring
      rw [h1]
      exact ih (init + ishaTerm angle o)
  have h0 := key l 0
  rw [mul_zero] at h0
  exact h0

lemma gsAux_mul_left (f : ℝ → ℝ) (tol c : ℝ) (hc : 0 < c) :
    ∀ (n : Nat) (a b x1 x2 f1 f2 : ℝ),
      gsAux (fun x => c * f x) tol n a b x1 x2 (c * f1) (c * f2) =
        gsAux f tol n a b x1 x2 f1 f2 := by
  intro n
  induction n with
  | zero => intro a b x1 x2 f1 f2; rfl
  | succ n ih =>
    intro a b x1 x2 f1 f2
    simp only [gsAux]
    by_cases h1 : b - a > tol
    · rw [if_pos h1, if_pos h1]
      by_cases h2 : f1 < f2
      · rw [if_pos ((mul_lt_mul_left hc).mpr h2), if_pos h2]
        exact ih a x2 (x2 - phi * (x2 - a)) x1 (f (x2 - phi * (x2 - a))) f1
      · rw [if_neg (fun hcon => h2 ((mul_lt_mul_left hc).mp hcon)), if_neg h2]
        exact ih x1 b x2 (x1 + phi * (b - x1)) f2 (f (x1 + phi * (b - x1)))
    · rw [if_neg h1, if_neg h1]

lemma goldenSection_mul_left (f : ℝ → ℝ) (a b tol : ℝ) (n : Nat) (c : ℝ) (hc : 0 < c) :
    goldenSection (fun x => c * f x) a b tol n = goldenSection f a b tol n := by
  unfold goldenSection
  exact gsAux_mul_left f tol c hc n a b (b - phi * (b - a)) (a + phi * (b - a))
    (f (b - phi * (b - a))) (f (a + phi * (b - a)))

/-- C6: multiplying every observation weight by the same positive constant
leaves the calibrated dawn and dusk angles unchanged (and preserves the
error/success outcome). -/
theorem calibrate_weight_scale_invariance (obs : List Observation) (opts : CalibrationOptions)
    (c : ℝ) (hc : 0 < c) :
    (calibrateAngles (scaleWeights c obs) opts).map (fun r => r.angles) =
      (calibrateAngles obs opts).map (fun r => r.angles) := by
  have hflen : ((scaleWeights c obs).filter fun o => o.fajr.isSome).length =
      (obs.filter fun o => o.fajr.isSome).length := by
    rw [scaleWeights_filter_fajr, scaleWeights_length]
  have hilen : ((scaleWeights c obs).filter fun o => o.isha.isSome).length =
      (obs.filter fun o => o.isha.isSome).length := by
    rw [scaleWeights_filter_isha, scaleWeights_length]
  by_cases hcond : ((obs.filter fun o => o.fajr.isSome).length < 2 ∧
      (obs.filter fun o => o.isha.isSome).length < 2)
  · have h1 := calibrateAngles_error_eq obs opts hcond
    have h2 := calibrateAngles_error_eq (scaleWeights c obs) opts
      (by rw [hflen, hilen]; exact hcond)
    rw [h1, h2, hflen, hilen]
  · have h1 := calibrateAngles_ok_eq obs opts hcond
    have h2 := calibrateAngles_ok_eq (scaleWeights c obs) opts
      (by rw [hflen, hilen]; exact hcond)
    rw [h1, h2]
    simp only [Except.map]
    have hfgs : goldenSection (fajrLoss ((scaleWeights c obs).filter fun o => o.fajr.isSome))
        (opts.fajrMin.getD 10) (opts.fajrMax.getD 22) (opts.tol.getD 1e-5)
        (opts.maxIter.getD 200) =
      goldenSection (fajrLoss (obs.filter fun o => o.fajr.isSome))
        (opts.fajrMin.getD 10) (opts.fajrMax.getD 22) (opts.tol.getD 1e-5)
        (opts.maxIter.getD 200) := by
      rw [scaleWeights_filter_fajr]
      rw [show fajrLoss (scaleWeights c (obs.filter fun o => o.fajr.isSome)) =
        fun x => c * fajrLoss (obs.filter fun o => o.fajr.isSome) x from
        funext fun x => fajrLoss_scale c _ x]
      exact goldenSection_mul_left _ _ _ _ _ c hc
    have higs : goldenSection (ishaLoss ((scaleWeights c obs).filter fun o => o.isha.isSome))
        (opts.ishaMin.getD 10) (opts.ishaMax.getD 22) (opts.tol.getD 1e-5)
        (opts.maxIter.getD 200) =
      goldenSection (ishaLoss (obs.filter fun o => o.isha.isSome))
        (opts.ishaMin.getD 10) (opts.ishaMax.getD 22) (opts.tol.getD 1e-5)
        (opts.maxIter.getD 200) := by
      rw [scaleWeights_filter_isha]
      rw [show ishaLoss (scaleWeights c (obs.filter fun o => o.isha.isSome)) =
        fun x => c * ishaLoss (obs.filter fun o => o.isha.isSome) x from
        funext fun x => ishaLoss_scale c _ x]
      exact goldenSection_mul_left _ _ _ _ _ c hc
    congr 1
    rw [hflen, hilen, hfgs, higs]

/-- Witness for C6 at the concrete scale factor 2. -/
theorem calibrate_weight_scale_invariance_witness :
    (0 : ℝ) < 2 ∧
    (calibrateAngles (scaleWeights 2 twoDawnObs)
        (⟨none, none, none, none, none, none, none, none⟩ : CalibrationOptions)).map
        (fun r => r.angles) =
      (calibrateAngles twoDawnObs
        (⟨none, none, none, none, none, none, none, none⟩ : CalibrationOptions)).map
        (fun r => r.angles) :=
  ⟨two_pos, calibrate_weight_scale_invariance twoDawnObs
    (⟨none, none, none, none, none, none, none, none⟩ : CalibrationOptions) 2 two_pos⟩

/-! ### Golden ratio algebra and bracket containment -/

lemma sqrt_five_ge_two : (2 : ℝ) ≤ Real.sqrt 5 := by
  rw [show (2 : ℝ) = Real.sqrt 4 from by
    rw [show (4 : ℝ) = 2 ^ 2 by norm_num, Real.sqrt_sq (by norm_num : (0:ℝ) ≤ 2)]]
  exact Real.sqrt_le_sqrt (by norm_num)

lemma sqrt_five_le_three : Real.sqrt 5 ≤ 3 := by
  rw [show (3 : ℝ) = Real.sqrt 9 from by
    rw [show (9 : ℝ) = 3 ^ 2 by norm_num, Real.sqrt_sq (by norm_num : (0:ℝ) ≤ 3)]]
  exact Real.sqrt_le_sqrt (by norm_num)

lemma phi_nonneg : 0 ≤ phi := by
  unfold phi
  have := sqrt_five_ge_two
  linarith

lemma phi_half_le : 1 / 2 ≤ phi := by
  unfold phi
  have := sqrt_five_ge_two
  linarith

lemma phi_le_one : phi ≤ 1 := by
  unfold phi
  have := sqrt_five_le_three
  linarith

lemma phi_sq : phi ^ 2 = 1 - phi := by
  have h : Real.sqrt 5 ^ 2 = 5 := Real.sq_sqrt (by norm_num)
  unfold phi
  linear_combination h / 4

lemma gsAux_mem (f : ℝ → ℝ) (tol lo hi : ℝ) :
    ∀ (n : Nat) (a b x1 x2 f1 f2 : ℝ), lo ≤ a → a ≤ b → b ≤ hi →
      x1 = b - phi * (b - a) → x2 = a + phi * (b - a) →
      gsAux f tol n a b x1 x2 f1 f2 ∈ Set.Icc lo hi := by
  intro n
  induction n with
  | zero =>
    intro a b x1 x2 f1 f2 hloa hab hbhi _ _
    exact ⟨by simp only [gsAux]; linarith, by simp only [gsAux]; linarith⟩
  | succ n ih =>
    intro a b x1 x2 f1 f2 hloa hab hbhi hx1 hx2
    have hphi0 := phi_nonneg
    have hphi1 := phi_le_one
    have hsq := phi_sq
    have hphidiff : 0 ≤ phi * (b - a) := mul_nonneg hphi0 (by linarith)
    have hphidiff2 : phi * (b - a) ≤ b - a := by nlinarith
    simp only [gsAux]
    by_cases h1 : b - a > tol
    · rw [if_pos h1]
      by_cases h2 : f1 < f2
      · rw [if_pos h2]
        refine ih a x2 _ x1 _ f1 hloa (by linarith [hx2.ge, hx2.le]) ?_ rfl ?_
        · rw [hx2]; linarith
        · rw [hx1, hx2]; linear_combination (-(b - a)) * hsq
      · rw [if_neg h2]
        refine ih x1 b x2 _ f2 _ ?_ ?_ hbhi ?_ rfl
        · rw [hx1]; linarith
        · rw [hx1]; linarith
        · rw [hx1, hx2]; linear_combination (b - a) * hsq
    · rw [if_neg h1]
      exact ⟨by linarith, by linarith⟩

lemma goldenSection_mem (f : ℝ → ℝ) (a b tol : ℝ) (n : Nat) (hab : a ≤ b) :
    goldenSection f a b tol n ∈ Set.Icc a b := by
  unfold goldenSection
  exact gsAux_mem f tol a b n a b _ _ _ _ le_rfl hab le_rfl rfl rfl

/-- C8 amended: on every successful call, each angle that was actually
fitted lies within its operator-configured interval (when that interval is
nonempty), while an unfitted angle is returned as the operator-supplied
initial guess unchanged — so with the default initial guesses both
returned angles lie in the default interval `[10, 22]`. -/
theorem calibrated_angles_within_bounds (obs : List Observation) (opts : CalibrationOptions)
    (hc : ¬((obs.filter fun o => o.fajr.isSome).length < 2 ∧
      (obs.filter fun o => o.isha.isSome).length < 2)) :
    ∃ r, calibrateAngles obs opts = Except.ok r ∧
      (2 ≤ (obs.filter fun o => o.fajr.isSome).length →
        opts.fajrMin.getD 10 ≤ opts.fajrMax.getD 22 →
        opts.fajrMin.getD 10 ≤ r.angles.fajrAngle ∧
          r.angles.fajrAngle ≤ opts.fajrMax.getD 22) ∧
      ((obs.filter fun o => o.fajr.isSome).length < 2 →
        r.angles.fajrAngle = opts.fajrAngle0.getD 15) ∧
      (2 ≤ (obs.filter fun o => o.isha.isSome).length →
        opts.ishaMin.getD 10 ≤ opts.ishaMax.getD 22 →
        opts.ishaMin.getD 10 ≤ r.angles.ishaAngle ∧
          r.angles.ishaAngle ≤ opts.ishaMax.getD 22) ∧
      ((obs.filter fun o => o.isha.isSome).length < 2 →
        r.angles.ishaAngle = opts.ishaAngle0.getD 15) := by
  refine ⟨_, calibrateAngles_ok_eq obs opts hc, ?_, ?_, ?_, ?_⟩
  · intro h2 hb
    dsimp only
    rw [if_pos h2]
    exact goldenSection_mem _ _ _ _ _ hb
  · intro hlt
    dsimp only
    rw [if_neg (by omega)]
  · intro h2 hb
    dsimp only
    rw [if_pos h2]
    exact goldenSection_mem _ _ _ _ _ hb
  · intro hlt
    dsimp only
    rw [if_neg (by omega)]

/-- Witness for the amended C8 at a concrete dawn-only dataset with
default options. -/
theorem calibrated_angles_within_bounds_witness :
    (¬(((twoDawnObs).filter fun o => o.fajr.isSome).length < 2 ∧
        ((twoDawnObs).filter fun o => o.isha.isSome).length < 2)) ∧
    (∃ r, calibrateAngles twoDawnObs
        (⟨none, none, none, none, none, none, none, none⟩ : CalibrationOptions) =
          Except.ok r ∧
      (2 ≤ ((twoDawnObs).filter fun o => o.fajr.isSome).length →
        ((⟨none, none, none, none, none, none, none, none⟩ :
            CalibrationOptions)).fajrMin.getD 10 ≤
          ((⟨none, none, none, none, none, none, none, none⟩ :
            CalibrationOptions)).fajrMax.getD 22 →
        ((⟨none, none, none, none, none, none, none, none⟩ :
            CalibrationOptions)).fajrMin.getD 10 ≤ r.angles.fajrAngle ∧
          r.angles.fajrAngle ≤
            ((⟨none, none, none, none, none, none, none, none⟩ :
              CalibrationOptions)).fajrMax.getD 22) ∧
      (((twoDawnObs).filter fun o => o.fajr.isSome).length < 2 →
        r.angles.fajrAngle =
          ((⟨none, none, none, none, none, none, none, none⟩ :
            CalibrationOptions)).fajrAngle0.getD 15) ∧
      (2 ≤ ((twoDawnObs).filter fun o => o.isha.isSome).length →
        ((⟨none, none, none, none, none, none, none, none⟩ :
            CalibrationOptions)).ishaMin.getD 10 ≤
          ((⟨none, none, none, none, none, none, none, none⟩ :
            CalibrationOptions)).ishaMax.getD 22 →
        ((⟨none, none, none, none, none, none, none, none⟩ :
            CalibrationOptions)).ishaMin.getD 10 ≤ r.angles.ishaAngle ∧
          r.angles.ishaAngle ≤
            ((⟨none, none, none, none, none, none, none, none⟩ :
              CalibrationOptions)).ishaMax.getD 22) ∧
      (((twoDawnObs).filter fun o => o.isha.isSome).length < 2 →
        r.angles.ishaAngle =
          ((⟨none, none, none, none, none, none, none, none⟩ :
            CalibrationOptions)).ishaAngle0.getD 15)) := by
  have hne : ¬(((twoDawnObs).filter fun o => o.fajr.isSome).length < 2 ∧
      ((twoDawnObs).filter fun o => o.isha.isSome).length < 2) := by
    intro h
    have := h.1
    simp [twoDawnObs] at this
  exact ⟨hne, calibrated_angles_within_bounds twoDawnObs
    (⟨none, none, none, none, none, none, none, none⟩ : CalibrationOptions) hne⟩

/-- Counterexample to C8 as stated: with an operator-supplied dusk initial
guess of 5 degrees and default bounds `[10, 22]`, a successful call on a
dawn-only dataset returns a dusk angle of 5, which is below the configured
lower bound. -/
theorem calibrated_angles_bounds_counterexample :
    (calibrateAngles twoDawnObs lowGuessOpts).map (fun r => r.angles.ishaAngle) =
        Except.ok 5 ∧
      ¬(lowGuessOpts.ishaMin.getD 10 ≤ (5 : ℝ)) := by
  constructor
  · have hne : ¬(((twoDawnObs).filter fun o => o.fajr.isSome).length < 2 ∧
        ((twoDawnObs).filter fun o => o.isha.isSome).length < 2) := by
      intro h
      have := h.1
      simp [twoDawnObs] at this
    rw [calibrateAngles_ok_eq twoDawnObs lowGuessOpts hne]
    simp [twoDawnObs, lowGuessOpts, Except.map]
  · simp [lowGuessOpts]
    norm_num

/-! ### Crossing extraction lemmas -/

lemma horizonCrossing_eq_some (jd lat lng tz altDeg : ℝ)
    (h1 : -1 ≤ cosHof jd lat altDeg) (h2 : cosHof jd lat altDeg ≤ 1) :
    horizonCrossing jd lat lng tz altDeg =
      some
        (12 - (solar jd).eqtHours - lng / 15 + tz -
          Real.arccos (cosHof jd lat altDeg) * 180 / π / 15,
          12 - (solar jd).eqtHours - lng / 15 + tz +
            Real.arccos (cosHof jd lat altDeg) * 180 / π / 15) := by
  simp only [horizonCrossing]
  rw [if_neg (by rintro (h | h) <;> linarith)]

lemma horizonCrossing_some_elim {jd lat lng tz altDeg : ℝ} {p : ℝ × ℝ}
    (h : horizonCrossing jd lat lng tz altDeg = some p) :
    -1 ≤ cosHof jd lat altDeg ∧ cosHof jd lat altDeg ≤ 1 ∧
      p.1 = 12 - (solar jd).eqtHours - lng / 15 + tz -
        Real.arccos (cosHof jd lat altDeg) * 180 / π / 15 ∧
      p.2 = 12 - (solar jd).eqtHours - lng / 15 + tz +
        Real.arccos (cosHof jd lat altDeg) * 180 / π / 15 := by
  by_cases hc : (cosHof jd lat altDeg < -1 ∨ cosHof jd lat altDeg > 1)
  · simp only [horizonCrossing] at h
    rw [if_pos hc] at h
    cases h
  · push_neg at hc
    have heq := horizonCrossing_eq_some jd lat lng tz altDeg hc.1 hc.2
    have hp := Option.some.inj (heq.symm.trans h)
    exact ⟨hc.1, hc.2, by rw [hp.symm], by rw [hp.symm]⟩

lemma predictFajr_some_elim {date : ObsDate} {lat lng tz a t : ℝ}
    (h : predictFajr date lat lng tz a = some t) :
    -1 ≤ cosHof ((jdn date : Int) : ℝ) lat (-a) ∧
      cosHof ((jdn date : Int) : ℝ) lat (-a) ≤ 1 ∧
      t = 12 - (solar ((jdn date : Int) : ℝ)).eqtHours - lng / 15 + tz -
        Real.arccos (cosHof ((jdn date : Int) : ℝ) lat (-a)) * 180 / π / 15 := by
  unfold predictFajr at h
  cases hc : horizonCrossing ((jdn date : Int) : ℝ) lat lng tz (-a) with
  | none => rw [hc] at h; cases h
  | some p =>
    rw [hc] at h
    simp only [Option.map_some'] at h
    obtain ⟨hl, hu, h1, _⟩ := horizonCrossing_some_elim hc
    exact ⟨hl, hu, by rw [(Option.some.inj h).symm, h1]⟩

lemma predictIsha_some_elim {date : ObsDate} {lat lng tz a s : ℝ}
    (h : predictIsha date lat lng tz a = some s) :
    -1 ≤ cosHof ((jdn date : Int) : ℝ) lat (-a) ∧
      cosHof ((jdn date : Int) : ℝ) lat (-a) ≤ 1 ∧
      s = 12 - (solar ((jdn date : Int) : ℝ)).eqtHours - lng / 15 + tz +
        Real.arccos (cosHof ((jdn date : Int) : ℝ) lat (-a)) * 180 / π / 15 := by
  unfold predictIsha at h
  cases hc : horizonCrossing ((jdn date : Int) : ℝ) lat lng tz (-a) with
  | none => rw [hc] at h; cases h
  | some p =>
    rw [hc] at h
    simp only [Option.map_some'] at h
    obtain ⟨hl, hu, _, h2⟩ := horizonCrossing_some_elim hc
    exact ⟨hl, hu, by rw [(Option.some.inj h).symm, h2]⟩

/-! ### Monotonicity of the predictor in the depression angle -/

lemma sin_neg_angle_strict_anti {a₁ a₂ : ℝ} (ha0 : 0 ≤ a₁) (ha12 : a₁ < a₂) (ha90 : a₂ ≤ 90) :
    Real.sin (-a₂ * π / 180) < Real.sin (-a₁ * π / 180) := by
  have hpi := Real.pi_pos
  apply Real.strictMonoOn_sin
  · exact Set.mem_Icc.mpr ⟨by nlinarith, by nlinarith⟩
  · exact Set.mem_Icc.mpr ⟨by nlinarith, by nlinarith⟩
  · nlinarith

lemma cosHof_strict_anti {jd lat : ℝ} {a₁ a₂ : ℝ} (ha0 : 0 ≤ a₁) (ha12 : a₁ < a₂)
    (ha90 : a₂ ≤ 90)
    (hden : 0 < Real.cos (lat * π / 180) * Real.cos ((solar jd).declRad)) :
    cosHof jd lat (-a₂) < cosHof jd lat (-a₁) := by
  unfold cosHof
  have hsin := sin_neg_angle_strict_anti ha0 ha12 ha90
  exact div_lt_div_of_pos_right (by linarith) hden

/-- C4: for a fixed date and location, over the physically valid range of
depression angles (non-polar geometry, both crossings exist), the
predicted dawn time is strictly decreasing and the predicted dusk time is
strictly increasing in the depression angle. -/
theorem predict_strict_monotone_in_angle (date : ObsDate) (lat lng tz a₁ a₂ t₁ t₂ s₁ s₂ : ℝ)
    (ha0 : 0 ≤ a₁) (ha12 : a₁ < a₂) (ha90 : a₂ ≤ 90)
    (hden : 0 < Real.cos (lat * π / 180) *
      Real.cos ((solar ((jdn date : Int) : ℝ)).declRad))
    (hf1 : predictFajr date lat lng tz a₁ = some t₁)
    (hf2 : predictFajr date lat lng tz a₂ = some t₂)
    (hi1 : predictIsha date lat lng tz a₁ = some s₁)
    (hi2 : predictIsha date lat lng tz a₂ = some s₂) :
    t₂ < t₁ ∧ s₁ < s₂ := by
  obtain ⟨hc1l, hc1u, ht1⟩ := predictFajr_some_elim hf1
  obtain ⟨hc2l, hc2u, ht2⟩ := predictFajr_some_elim hf2
  obtain ⟨_, _, hs1⟩ := predictIsha_some_elim hi1
  obtain ⟨_, _, hs2⟩ := predictIsha_some_elim hi2
  have hcos := cosHof_strict_anti ha0 ha12 ha90 hden
  have harc : Real.arccos (cosHof ((jdn date : Int) : ℝ) lat (-a₁)) <
      Real.arccos (cosHof ((jdn date : Int) : ℝ) lat (-a₂)) :=
    Real.strictAntiOn_arccos ⟨hc2l, hc2u⟩ ⟨hc1l, hc1u⟩ hcos
  have hpi := Real.pi_pos
  have hscale : Real.arccos (cosHof ((jdn date : Int) : ℝ) lat (-a₁)) * 180 / π / 15 <
      Real.arccos (cosHof ((jdn date : Int) : ℝ) lat (-a₂)) * 180 / π / 15 := by
    apply div_lt_div_of_pos_right _ (by norm_num : (0:ℝ) < 15)
    apply div_lt_div_of_pos_right _ hpi
    linarith
  constructor
  · rw [ht1, ht2]
    linarith
  · rw [hs1, hs2]
    linarith

/-- C5: for a valid non-polar date, location and angle at which a genuine
crossing exists (the hour-angle cosine is within `[-1, 1)`), the predicted
dawn time strictly precedes the predicted dusk time. -/
theorem predict_dawn_before_dusk (date : ObsDate) (lat lng tz a t s : ℝ)
    (hf : predictFajr date lat lng tz a = some t)
    (hi : predictIsha date lat lng tz a = some s)
    (hlt : cosHof ((jdn date : Int) : ℝ) lat (-a) < 1) :
    t < s := by
  obtain ⟨_, _, ht⟩ := predictFajr_some_elim hf
  obtain ⟨_, _, hs⟩ := predictIsha_some_elim hi
  have harc : 0 < Real.arccos (cosHof ((jdn date : Int) : ℝ) lat (-a)) :=
    Real.arccos_pos.mpr hlt
  have hpi := Real.pi_pos
  have hpos : 0 < Real.arccos (cosHof ((jdn date : Int) : ℝ) lat (-a)) * 180 / π / 15 := by
    positivity
  rw [ht, hs]
  linarith

/-! ### Numeric bounds on the ephemeris for dates in 2000 - 2100 -/

lemma solarT_bounds {jd : ℝ} (h1 : 2451545 ≤ jd) (h2 : jd ≤ 2488070) :
    0 ≤ solarT jd ∧ solarT jd ≤ 1 := by
  unfold solarT
  constructor
  · apply div_nonneg (by linarith) (by norm_num)
  · rw [div_le_one (by norm_num)]
    linarith

lemma solarEps0_bounds {jd : ℝ} (hT0 : 0 ≤ solarT jd) (hT1 : solarT jd ≤ 1) :
    (2342/100 : ℝ) ≤ solarEps0 jd ∧ solarEps0 jd ≤ (2344/100 : ℝ) := by
  unfold solarEps0
  set T := solarT jd with hT
  have h2 : T * T ≤ 1 := by nlinarith
  have h2n : 0 ≤ T * T := mul_nonneg hT0 hT0
  have h3 : T * T * T ≤ 1 := by nlinarith
  have h3n : 0 ≤ T * T * T := mul_nonneg h2n hT0
  constructor <;> nlinarith

lemma solarEps_bounds {jd : ℝ} (hT0 : 0 ≤ solarT jd) (hT1 : solarT jd ≤ 1) :
    (2341/100 : ℝ) ≤ solarEps jd ∧ solarEps jd ≤ (2345/100 : ℝ) := by
  have h0 := solarEps0_bounds hT0 hT1
  unfold solarEps
  have hc1 := Real.neg_one_le_cos (solarOmega jd * π / 180)
  have hc2 := Real.cos_le_one (solarOmega jd * π / 180)
  constructor <;> nlinarith

lemma solarEpsRad_bounds {jd : ℝ} (hT0 : 0 ≤ solarT jd) (hT1 : solarT jd ≤ 1) :
    (2/5 : ℝ) ≤ solarEps jd * π / 180 ∧ solarEps jd * π / 180 ≤ (41/100 : ℝ) := by
  have he := solarEps_bounds hT0 hT1
  have hpl := Real.pi_gt_d4
  have hpu := Real.pi_lt_d4
  constructor
  · rw [le_div_iff (by norm_num : (0:ℝ) < 180)]
    nlinarith [he.1, he.2]
  · rw [div_le_iff (by norm_num : (0:ℝ) < 180)]
    nlinarith [he.1, he.2]

lemma solar_declRad_eq (jd : ℝ) :
    (solar jd).declRad =
      Real.arcsin (Real.sin (solarEps jd * π / 180) * Real.sin (solarLambda jd * π / 180)) :=
  rfl

lemma sin_decl_abs_le {jd : ℝ} (hT0 : 0 ≤ solarT jd) (hT1 : solarT jd ≤ 1) :
    |Real.sin (solarEps jd * π / 180) * Real.sin (solarLambda jd * π / 180)| ≤ (41/100 : ℝ) := by
  have he := solarEpsRad_bounds hT0 hT1
  rw [abs_mul]
  have h1 : |Real.sin (solarEps jd * π / 180)| ≤ (41/100 : ℝ) := by
    refine le_trans Real.abs_sin_le_abs ?_
    rw [abs_of_nonneg (by linarith [he.1])]
    exact he.2
  have h2 : |Real.sin (solarLambda jd * π / 180)| ≤ 1 :=
    abs_le.mpr ⟨Real.neg_one_le_sin _, Real.sin_le_one _⟩
  calc |Real.sin (solarEps jd * π / 180)| * |Real.sin (solarLambda jd * π / 180)| ≤
      (41/100 : ℝ) * 1 := by
        apply mul_le_mul h1 h2 (abs_nonneg _) (by norm_num)
    _ = (41/100 : ℝ) := by norm_num

lemma cos_decl_ge {jd : ℝ} (h1 : 2451545 ≤ jd) (h2 : jd ≤ 2488070) :
    (91/100 : ℝ) ≤ Real.cos (solar jd).declRad := by
  obtain ⟨hT0, hT1⟩ := solarT_bounds h1 h2
  have habs := sin_decl_abs_le hT0 hT1
  obtain ⟨hl, hu⟩ := abs_le.mp habs
  rw [solar_declRad_eq, Real.cos_arcsin]
  rw [Real.le_sqrt (by norm_num) (by nlinarith)]
  nlinarith

lemma cosHof_equator_abs_le (jd a : ℝ) (h1 : 2451545 ≤ jd) (h2 : jd ≤ 2488070)
    (ha0 : 0 ≤ a) (ha : a ≤ 22) : |cosHof jd 0 (-a)| ≤ (43/100 : ℝ) := by
  have hd := cos_decl_ge h1 h2
  unfold cosHof
  have hz : ((0:ℝ) * π / 180) = 0 := by ring
  rw [hz, Real.sin_zero, Real.cos_zero, zero_mul, sub_zero, one_mul, abs_div]
  have hnum : |Real.sin (-a * π / 180)| ≤ (39/100 : ℝ) := by
    refine le_trans Real.abs_sin_le_abs ?_
    have hpu := Real.pi_lt_d4
    have hpl := Real.pi_gt_d4
    have : |(-a * π / 180)| = a * π / 180 := by
      rw [abs_of_nonpos (show -a * π / 180 ≤ 0 by
        have hpi := Real.pi_pos
        have : 0 ≤ a * π := mul_nonneg ha0 hpi.le
        linarith)]
      ring
    rw [this]
    rw [div_le_iff (by norm_num : (0:ℝ) < 180)]
    nlinarith
  have hdenpos : (0:ℝ) < Real.cos (solar jd).declRad := by linarith
  have hdenabs : |Real.cos (solar jd).declRad| = Real.cos (solar jd).declRad :=
    abs_of_pos hdenpos
  rw [hdenabs]
  calc |Real.sin (-a * π / 180)| / Real.cos (solar jd).declRad ≤
      (39/100 : ℝ) / (91/100 : ℝ) := by
        apply div_le_div (by norm_num) hnum (by norm_num) hd
    _ ≤ (43/100 : ℝ) := by norm_num

lemma predictFajr_equator_eq (d : ObsDate) (lng tz a : ℝ)
    (h1 : (2451545:ℝ) ≤ ((jdn d : Int) : ℝ)) (h2 : ((jdn d : Int) : ℝ) ≤ 2488070)
    (ha0 : 0 ≤ a) (ha : a ≤ 22) :
    predictFajr d 0 lng tz a =
      some (12 - (solar ((jdn d : Int) : ℝ)).eqtHours - lng / 15 + tz -
        Real.arccos (cosHof ((jdn d : Int) : ℝ) 0 (-a)) * 180 / π / 15) := by
  have habs := cosHof_equator_abs_le ((jdn d : Int) : ℝ) a h1 h2 ha0 ha
  obtain ⟨hl, hu⟩ := abs_le.mp habs
  unfold predictFajr
  rw [horizonCrossing_eq_some _ _ _ _ _ (by linarith) (by linarith)]
  rfl

lemma predictIsha_equator_eq (d : ObsDate) (lng tz a : ℝ)
    (h1 : (2451545:ℝ) ≤ ((jdn d : Int) : ℝ)) (h2 : ((jdn d : Int) : ℝ) ≤ 2488070)
    (ha0 : 0 ≤ a) (ha : a ≤ 22) :
    predictIsha d 0 lng tz a =
      some (12 - (solar ((jdn d : Int) : ℝ)).eqtHours - lng / 15 + tz +
        Real.arccos (cosHof ((jdn d : Int) : ℝ) 0 (-a)) * 180 / π / 15) := by
  have habs := cosHof_equator_abs_le ((jdn d : Int) : ℝ) a h1 h2 ha0 ha
  obtain ⟨hl, hu⟩ := abs_le.mp habs
  unfold predictIsha
  rw [horizonCrossing_eq_some _ _ _ _ _ (by linarith) (by linarith)]
  rfl

lemma jdn_20240115_bounds :
    (2451545:ℝ) ≤ ((jdn ⟨2024, 1, 15⟩ : Int) : ℝ) ∧ ((jdn ⟨2024, 1, 15⟩ : Int) : ℝ) ≤ 2488070 := by
  constructor
  · exact_mod_cast (by decide : (2451545 : Int) ≤ jdn ⟨2024, 1, 15⟩)
  · exact_mod_cast (by decide : jdn ⟨2024, 1, 15⟩ ≤ (2488070 : Int))

lemma cos_lat_zero : Real.cos ((0:ℝ) * π / 180) = 1 := by
  rw [show ((0:ℝ) * π / 180) = 0 by ring, Real.cos_zero]

/-- Witness for C4 at the equator on 2024-01-15 with angles 15 and 18. -/
theorem predict_strict_monotone_in_angle_witness :
    ((0:ℝ) ≤ 15 ∧ (15:ℝ) < 18 ∧ (18:ℝ) ≤ 90 ∧
      0 < Real.cos ((0:ℝ) * π / 180) *
        Real.cos ((solar ((jdn ⟨2024, 1, 15⟩ : Int) : ℝ)).declRad) ∧
      predictFajr ⟨2024, 1, 15⟩ 0 0 0 15 =
        some (12 - (solar ((jdn ⟨2024, 1, 15⟩ : Int) : ℝ)).eqtHours - 0 / 15 + 0 -
          Real.arccos (cosHof ((jdn ⟨2024, 1, 15⟩ : Int) : ℝ) 0 (-15)) * 180 / π / 15) ∧
      predictFajr ⟨2024, 1, 15⟩ 0 0 0 18 =
        some (12 - (solar ((jdn ⟨2024, 1, 15⟩ : Int) : ℝ)).eqtHours - 0 / 15 + 0 -
          Real.arccos (cosHof ((jdn ⟨2024, 1, 15⟩ : Int) : ℝ) 0 (-18)) * 180 / π / 15) ∧
      predictIsha ⟨2024, 1, 15⟩ 0 0 0 15 =
        some (12 - (solar ((jdn ⟨2024, 1, 15⟩ : Int) : ℝ)).eqtHours - 0 / 15 + 0 +
          Real.arccos (cosHof ((jdn ⟨2024, 1, 15⟩ : Int) : ℝ) 0 (-15)) * 180 / π / 15) ∧
      predictIsha ⟨2024, 1, 15⟩ 0 0 0 18 =
        some (12 - (solar ((jdn ⟨2024, 1, 15⟩ : Int) : ℝ)).eqtHours - 0 / 15 + 0 +
          Real.arccos (cosHof ((jdn ⟨2024, 1, 15⟩ : Int) : ℝ) 0 (-18)) * 180 / π / 15)) ∧
    ((12 - (solar ((jdn ⟨2024, 1, 15⟩ : Int) : ℝ)).eqtHours - 0 / 15 + 0 -
        Real.arccos (cosHof ((jdn ⟨2024, 1, 15⟩ : Int) : ℝ) 0 (-18)) * 180 / π / 15) <
      (12 - (solar ((jdn ⟨2024, 1, 15⟩ : Int) : ℝ)).eqtHours - 0 / 15 + 0 -
        Real.arccos (cosHof ((jdn ⟨2024, 1, 15⟩ : Int) : ℝ) 0 (-15)) * 180 / π / 15) ∧
      (12 - (solar ((jdn ⟨2024, 1, 15⟩ : Int) : ℝ)).eqtHours - 0 / 15 + 0 +
        Real.arccos (cosHof ((jdn ⟨2024, 1, 15⟩ : Int) : ℝ) 0 (-15)) * 180 / π / 15) <
      (12 - (solar ((jdn ⟨2024, 1, 15⟩ : Int) : ℝ)).eqtHours - 0 / 15 + 0 +
        Real.arccos (cosHof ((jdn ⟨2024, 1, 15⟩ : Int) : ℝ) 0 (-18)) * 180 / π / 15)) := by
  obtain ⟨hj1, hj2⟩ := jdn_20240115_bounds
  have hden : 0 < Real.cos ((0:ℝ) * π / 180) *
      Real.cos ((solar ((jdn ⟨2024, 1, 15⟩ : Int) : ℝ)).declRad) := by
    rw [cos_lat_zero, one_mul]
    linarith [cos_decl_ge hj1 hj2]
  have hf15 := predictFajr_equator_eq ⟨2024, 1, 15⟩ 0 0 15 hj1 hj2 (by norm_num) (by norm_num)
  have hf18 := predictFajr_equator_eq ⟨2024, 1, 15⟩ 0 0 18 hj1 hj2 (by norm_num) (by norm_num)
  have hi15 := predictIsha_equator_eq ⟨2024, 1, 15⟩ 0 0 15 hj1 hj2 (by norm_num) (by norm_num)
  have hi18 := predictIsha_equator_eq ⟨2024, 1, 15⟩ 0 0 18 hj1 hj2 (by norm_num) (by norm_num)
  refine ⟨⟨by norm_num, by norm_num, by norm_num, hden, hf15, hf18, hi15, hi18⟩, ?_⟩
  exact predict_strict_monotone_in_angle ⟨2024, 1, 15⟩ 0 0 0 15 18 _ _ _ _
    (by norm_num) (by norm_num) (by norm_num) hden hf15 hf18 hi15 hi18

/-- Witness for C5 at the equator on 2024-01-15 with angle 15. -/
theorem predict_dawn_before_dusk_witness :
    (predictFajr ⟨2024, 1, 15⟩ 0 0 0 15 =
        some (12 - (solar ((jdn ⟨2024, 1, 15⟩ : Int) : ℝ)).eqtHours - 0 / 15 + 0 -
          Real.arccos (cosHof ((jdn ⟨2024, 1, 15⟩ : Int) : ℝ) 0 (-15)) * 180 / π / 15) ∧
      predictIsha ⟨2024, 1, 15⟩ 0 0 0 15 =
        some (12 - (solar ((jdn ⟨2024, 1, 15⟩ : Int) : ℝ)).eqtHours - 0 / 15 + 0 +
          Real.arccos (cosHof ((jdn ⟨2024, 1, 15⟩ : Int) : ℝ) 0 (-15)) * 180 / π / 15) ∧
      cosHof ((jdn ⟨2024, 1, 15⟩ : Int) : ℝ) 0 (-15) < 1) ∧
    (12 - (solar ((jdn ⟨2024, 1, 15⟩ : Int) : ℝ)).eqtHours - 0 / 15 + 0 -
        Real.arccos (cosHof ((jdn ⟨2024, 1, 15⟩ : Int) : ℝ) 0 (-15)) * 180 / π / 15) <
      (12 - (solar ((jdn ⟨2024, 1, 15⟩ : Int) : ℝ)).eqtHours - 0 / 15 + 0 +
        Real.arccos (cosHof ((jdn ⟨2024, 1, 15⟩ : Int) : ℝ) 0 (-15)) * 180 / π / 15) := by
  obtain ⟨hj1, hj2⟩ := jdn_20240115_bounds
  have hf15 := predictFajr_equator_eq ⟨2024, 1, 15⟩ 0 0 15 hj1 hj2 (by norm_num) (by norm_num)
  have hi15 := predictIsha_equator_eq ⟨2024, 1, 15⟩ 0 0 15 hj1 hj2 (by norm_num) (by norm_num)
  have habs := cosHof_equator_abs_le ((jdn ⟨2024, 1, 15⟩ : Int) : ℝ) 15 hj1 hj2
    (by norm_num) (by norm_num)
  have hlt : cosHof ((jdn ⟨2024, 1, 15⟩ : Int) : ℝ) 0 (-15) < 1 := by
    have := (abs_le.mp habs).2
    linarith
  exact ⟨⟨hf15, hi15, hlt⟩,
    predict_dawn_before_dusk ⟨2024, 1, 15⟩ 0 0 0 15 _ _ hf15 hi15 hlt⟩

/-! ### Golden-section search convergence on a strictly unimodal loss -/

lemma phi_half_lt : 1 / 2 < phi := by
  unfold phi
  have h : (2:ℝ) < Real.sqrt 5 := by
    rw [show (2:ℝ) = Real.sqrt 4 from by
      rw [show (4:ℝ) = 2 ^ 2 by norm_num, Real.sqrt_sq (by norm_num : (0:ℝ) ≤ 2)]]
    exact Real.sqrt_lt_sqrt (by norm_num) (by norm_num)
  linarith

lemma gsAux_unimodal_spec (f : ℝ → ℝ) (tol lo hi m : ℝ) (huni : StrictUnimodalOn f lo hi m) :
    ∀ (n : Nat) (a b x1 x2 : ℝ), lo ≤ a → a ≤ b → b ≤ hi → a ≤ m → m ≤ b →
      x1 = b - phi * (b - a) → x2 = a + phi * (b - a) →
      ∃ a' b', a' ≤ m ∧ m ≤ b' ∧
        gsAux f tol n a b x1 x2 (f x1) (f x2) = (a' + b') / 2 ∧
        (b' - a' ≤ tol ∨ b' - a' ≤ phi ^ n * (b - a)) := by
  intro n
  induction n with
  | zero =>
    intro a b x1 x2 hloa hab hbhi ham hmb hx1 hx2
    exact ⟨a, b, ham, hmb, rfl, Or.inr (by rw [pow_zero, one_mul])⟩
  | succ n ih =>
    intro a b x1 x2 hloa hab hbhi ham hmb hx1 hx2
    have hphi0 := phi_nonneg
    have hphi1 := phi_le_one
    have hphih := phi_half_lt
    have hsq := phi_sq
    have hd0 : 0 ≤ phi * (b - a) := mul_nonneg hphi0 (by linarith)
    have hd1 : phi * (b - a) ≤ b - a := by nlinarith
    simp only [gsAux]
    by_cases h1 : b - a > tol
    · rw [if_pos h1]
      by_cases h2 : f x1 < f x2
      · rw [if_pos h2]
        -- the minimizer cannot lie strictly right of x2
        have hmx2 : m ≤ x2 := by
          rcases eq_or_lt_of_le hab with heq | hab'
          · subst heq
            rw [hx2]
            simpa using hmb
          · by_contra hcon
            push_neg at hcon
            have hx1x2 : x1 < x2 := by
              rw [hx1, hx2]
              nlinarith
            have hlox1 : lo ≤ x1 := by
              rw [hx1]
              linarith
            have := huni.1 x1 x2 hlox1 hx1x2 (le_of_lt hcon)
            linarith
        obtain ⟨a', b', h1', h2', h3', h4'⟩ := ih a x2 (x2 - phi * (x2 - a)) x1 hloa
          (by rw [hx2]; linarith) (by rw [hx2]; linarith) ham hmx2 rfl
          (by rw [hx1, hx2]; linear_combination (-(b - a)) * hsq)
        refine ⟨a', b', h1', h2', h3', ?_⟩
        rcases h4' with h | h
        · exact Or.inl h
        · refine Or.inr ?_
          have hx2a : x2 - a = phi * (b - a) := by rw [hx2]; ring
          calc b' - a' ≤ phi ^ n * (x2 - a) := h
            _ = phi ^ (n + 1) * (b - a) := by rw [hx2a]; ring
      · rw [if_neg h2]
        -- the minimizer cannot lie strictly left of x1
        have hx1m : x1 ≤ m := by
          rcases eq_or_lt_of_le hab with heq | hab'
          · subst heq
            rw [hx1]
            simpa using ham
          · by_contra hcon
            push_neg at hcon
            have hx1x2 : x1 < x2 := by
              rw [hx1, hx2]
              nlinarith
            have hx2hi : x2 ≤ hi := by
              rw [hx2]
              linarith
            exact h2 (huni.2 x1 x2 (le_of_lt hcon) hx1x2 hx2hi)
        obtain ⟨a', b', h1', h2', h3', h4'⟩ := ih x1 b x2 (x1 + phi * (b - x1))
          (by rw [hx1]; linarith) (by rw [hx1]; linarith) hbhi hx1m hmb
          (by rw [hx1, hx2]; linear_combination (b - a) * hsq) rfl
        refine ⟨a', b', h1', h2', h3', ?_⟩
        rcases h4' with h | h
        · exact Or.inl h
        · refine Or.inr ?_
          have hbx1 : b - x1 = phi * (b - a) := by rw [hx1]; ring
          calc b' - a' ≤ phi ^ n * (b - x1) := h
            _ = phi ^ (n + 1) * (b - a) := by rw [hbx1]; ring
    · rw [if_neg h1]
      exact ⟨a, b, ham, hmb, rfl, Or.inl (by linarith)⟩

lemma goldenSection_near_minimizer (f : ℝ → ℝ) (lo hi tol : ℝ) (n : Nat) (m : ℝ)
    (huni : StrictUnimodalOn f lo hi m) (hlom : lo ≤ m) (hmhi : m ≤ hi) (hlohi : lo ≤ hi) :
    |goldenSection f lo hi tol n - m| ≤ max tol (phi ^ n * (hi - lo)) := by
  unfold goldenSection
  obtain ⟨a', b', h1', h2', h3', h4'⟩ := gsAux_unimodal_spec f tol lo hi m huni n lo hi
    (hi - phi * (hi - lo)) (lo + phi * (hi - lo)) le_rfl hlohi le_rfl hlom hmhi rfl rfl
  rw [h3']
  have hw : b' - a' ≤ max tol (phi ^ n * (hi - lo)) := by
    rcases h4' with h | h
    · exact le_trans h (le_max_left _ _)
    · exact le_trans h (le_max_right _ _)
  rw [abs_le]
  constructor <;> [skip; skip] <;> linarith

lemma phi_le_62 : phi ≤ 62 / 100 := by
  unfold phi
  have h : Real.sqrt 5 ≤ 2.24 := by
    rw [show (2.24:ℝ) = Real.sqrt (2.24 ^ 2) from (Real.sqrt_sq (by norm_num)).symm]
    exact Real.sqrt_le_sqrt (by norm_num)
  linarith

lemma phi_pow_200_small : phi ^ 200 * 12 ≤ 1e-5 := by
  have h1 : phi ^ 200 ≤ (62 / 100 : ℝ) ^ 200 := pow_le_pow_left phi_nonneg phi_le_62 200
  have h2 : ((62 : ℝ) / 100) ^ 200 * 12 ≤ 1e-5 := by norm_num
  nlinarith [h1, h2]

/-! ### Lipschitz bounds for the crossing time in the angle -/

lemma abs_sin_sub_sin_le (u v : ℝ) : |Real.sin u - Real.sin v| ≤ |u - v| := by
  rw [Real.sin_sub_sin, abs_mul, abs_mul]
  have h1 : |Real.sin ((u - v) / 2)| ≤ |(u - v) / 2| := Real.abs_sin_le_abs
  have h2 : |Real.cos ((u + v) / 2)| ≤ 1 :=
    abs_le.mpr ⟨Real.neg_one_le_cos _, Real.cos_le_one _⟩
  have h3 : |(2:ℝ)| * |Real.sin ((u - v) / 2)| ≤ 2 * |(u - v) / 2| := by
    rw [abs_two]
    exact mul_le_mul_of_nonneg_left h1 (by norm_num)
  calc |(2:ℝ)| * |Real.sin ((u - v) / 2)| * |Real.cos ((u + v) / 2)| ≤
      (2 * |(u - v) / 2|) * 1 := by
        apply mul_le_mul h3 h2 (abs_nonneg _)
        positivity
    _ = |u - v| := by
        rw [mul_one, abs_div]
        norm_num
        ring

lemma arccos_lipschitz_on (x y : ℝ) (hx : |x| ≤ 9 / 10) (hy : |y| ≤ 9 / 10) :
    |Real.arccos x - Real.arccos y| ≤ (12 / 5) * |x - y| := by
  wlog hxy : x ≤ y generalizing x y
  · have h := this y x hy hx (le_of_not_le hxy)
    rw [abs_sub_comm (Real.arccos y), abs_sub_comm y] at h
    exact h
  rcases eq_or_lt_of_le hxy with heq | hlt
  · subst heq
    simp
  · obtain ⟨c, hc, hslope⟩ := exists_hasDerivAt_eq_slope Real.arccos
      (fun t => -(1 / Real.sqrt (1 - t ^ 2))) hlt Real.continuous_arccos.continuousOn
      (fun t ht => by
        have htb : |t| ≤ 9 / 10 := by
          obtain ⟨h1, h2⟩ := ht
          obtain ⟨hx1, hx2⟩ := abs_le.mp hx
          obtain ⟨hy1, hy2⟩ := abs_le.mp hy
          exact abs_le.mpr ⟨by linarith, by linarith⟩
        obtain ⟨ht1, ht2⟩ := abs_le.mp htb
        exact Real.hasDerivAt_arccos (by intro h; rw [h] at ht1; norm_num at ht1)
          (by intro h; rw [h] at ht2; norm_num at ht2))
    obtain ⟨hc1, hc2⟩ := hc
    have hcb : |c| ≤ 9 / 10 := by
      obtain ⟨hx1, hx2⟩ := abs_le.mp hx
      obtain ⟨hy1, hy2⟩ := abs_le.mp hy
      exact abs_le.mpr ⟨by linarith, by linarith⟩
    obtain ⟨hcl, hcu⟩ := abs_le.mp hcb
    have hsqrt : (5 / 12 : ℝ) ≤ Real.sqrt (1 - c ^ 2) := by
      rw [Real.le_sqrt (by norm_num) (by nlinarith)]
      nlinarith
    have hsp : (0:ℝ) < Real.sqrt (1 - c ^ 2) := lt_of_lt_of_le (by norm_num) hsqrt
    have heq2 : Real.arccos y - Real.arccos x = -(1 / Real.sqrt (1 - c ^ 2)) * (y - x) := by
      rw [eq_div_iff (by linarith : y - x ≠ 0)] at hslope
      exact hslope.symm
    have habs : |Real.arccos x - Real.arccos y| =
        (1 / Real.sqrt (1 - c ^ 2)) * (y - x) := by
      rw [abs_sub_comm, heq2, abs_mul, abs_neg, abs_of_pos (by positivity),
        abs_of_pos (by linarith)]
    rw [habs, abs_sub_comm, abs_of_pos (by linarith : (0:ℝ) < y - x)]
    have hinv : 1 / Real.sqrt (1 - c ^ 2) ≤ 12 / 5 := by
      rw [div_le_iff hsp]
      calc (1:ℝ) = (12 / 5) * (5 / 12) := by norm_num
        _ ≤ 12 / 5 * Real.sqrt (1 - c ^ 2) := by
            apply mul_le_mul_of_nonneg_left hsqrt (by norm_num)
    exact mul_le_mul_of_nonneg_right hinv (by linarith)

lemma predictFajr_eq_riseTime (o : Observation) (a : ℝ)
    (h1 : -1 ≤ cosHof ((jdn o.date : Int) : ℝ) o.lat (-a))
    (h2 : cosHof ((jdn o.date : Int) : ℝ) o.lat (-a) ≤ 1) :
    predictFajr o.date o.lat o.lng o.tz a = some (riseTime o a) := by
  unfold predictFajr riseTime
  rw [horizonCrossing_eq_some _ _ _ _ _ h1 h2]
  rfl

lemma predictIsha_eq_setTime (o : Observation) (a : ℝ)
    (h1 : -1 ≤ cosHof ((jdn o.date : Int) : ℝ) o.lat (-a))
    (h2 : cosHof ((jdn o.date : Int) : ℝ) o.lat (-a) ≤ 1) :
    predictIsha o.date o.lat o.lng o.tz a = some (setTime o a) := by
  unfold predictIsha setTime
  rw [horizonCrossing_eq_some _ _ _ _ _ h1 h2]
  rfl

lemma riseTime_strict_anti (o : Observation)
    (hden : 0 < Real.cos (o.lat * π / 180) *
      Real.cos ((solar ((jdn o.date : Int) : ℝ)).declRad))
    (hvalid : ∀ a, 10 ≤ a → a ≤ 22 →
      |cosHof ((jdn o.date : Int) : ℝ) o.lat (-a)| ≤ 9 / 10)
    {x y : ℝ} (hx : 10 ≤ x) (hxy : x < y) (hy : y ≤ 22) :
    riseTime o y < riseTime o x := by
  have hcos := @cosHof_strict_anti ((jdn o.date : Int) : ℝ) o.lat x y
    (by linarith : (0:ℝ) ≤ x) hxy (by linarith) hden
  obtain ⟨hbx1, hbx2⟩ := abs_le.mp (hvalid x hx (by linarith))
  obtain ⟨hby1, hby2⟩ := abs_le.mp (hvalid y (by linarith) hy)
  have harc := Real.strictAntiOn_arccos
    (Set.mem_Icc.mpr ⟨by linarith, by linarith⟩)
    (Set.mem_Icc.mpr ⟨by linarith, by linarith⟩) hcos
  have hpi := Real.pi_pos
  have hscale : Real.arccos (cosHof ((jdn o.date : Int) : ℝ) o.lat (-x)) * 180 / π / 15 <
      Real.arccos (cosHof ((jdn o.date : Int) : ℝ) o.lat (-y)) * 180 / π / 15 := by
    apply div_lt_div_of_pos_right _ (by norm_num : (0:ℝ) < 15)
    apply div_lt_div_of_pos_right _ hpi
    linarith
  unfold riseTime
  linarith

lemma setTime_strict_mono (o : Observation)
    (hden : 0 < Real.cos (o.lat * π / 180) *
      Real.cos ((solar ((jdn o.date : Int) : ℝ)).declRad))
    (hvalid : ∀ a, 10 ≤ a → a ≤ 22 →
      |cosHof ((jdn o.date : Int) : ℝ) o.lat (-a)| ≤ 9 / 10)
    {x y : ℝ} (hx : 10 ≤ x) (hxy : x < y) (hy : y ≤ 22) :
    setTime o x < setTime o y := by
  have hcos := @cosHof_strict_anti ((jdn o.date : Int) : ℝ) o.lat x y
    (by linarith : (0:ℝ) ≤ x) hxy (by linarith) hden
  obtain ⟨hbx1, hbx2⟩ := abs_le.mp (hvalid x hx (by linarith))
  obtain ⟨hby1, hby2⟩ := abs_le.mp (hvalid y (by linarith) hy)
  have harc := Real.strictAntiOn_arccos
    (Set.mem_Icc.mpr ⟨by linarith, by linarith⟩)
    (Set.mem_Icc.mpr ⟨by linarith, by linarith⟩) hcos
  have hpi := Real.pi_pos
  have hscale : Real.arccos (cosHof ((jdn o.date : Int) : ℝ) o.lat (-x)) * 180 / π / 15 <
      Real.arccos (cosHof ((jdn o.date : Int) : ℝ) o.lat (-y)) * 180 / π / 15 := by
    apply div_lt_div_of_pos_right _ (by norm_num : (0:ℝ) < 15)
    apply div_lt_div_of_pos_right _ hpi
    linarith
  unfold setTime
  linarith

lemma cosHof_diff_abs_le (o : Observation)
    (hden : 1 / 100 ≤ Real.cos (o.lat * π / 180) *
      Real.cos ((solar ((jdn o.date : Int) : ℝ)).declRad))
    (x y : ℝ) :
    |cosHof ((jdn o.date : Int) : ℝ) o.lat (-x) - cosHof ((jdn o.date : Int) : ℝ) o.lat (-y)| ≤
      π / 180 * |x - y| * 100 := by
  have hDpos : (0:ℝ) < Real.cos (o.lat * π / 180) *
      Real.cos ((solar ((jdn o.date : Int) : ℝ)).declRad) :=
    lt_of_lt_of_le (by norm_num) hden
  have hpi := Real.pi_pos
  have hdiff : cosHof ((jdn o.date : Int) : ℝ) o.lat (-x) -
      cosHof ((jdn o.date : Int) : ℝ) o.lat (-y) =
      (Real.sin (-x * π / 180) - Real.sin (-y * π / 180)) /
        (Real.cos (o.lat * π / 180) * Real.cos ((solar ((jdn o.date : Int) : ℝ)).declRad)) := by
    unfold cosHof
    rw [div_sub_div_same]
    congr 1
    ring
  rw [hdiff, abs_div, abs_of_pos hDpos]
  have hs := abs_sin_sub_sin_le (-x * π / 180) (-y * π / 180)
  have harg : |(-x * π / 180) - (-y * π / 180)| = π / 180 * |x - y| := by
    rw [show (-x * π / 180) - (-y * π / 180) = (y - x) * (π / 180) by ring, abs_mul,
      abs_of_pos (by positivity : (0:ℝ) < π / 180), abs_sub_comm]
    ring
  calc |Real.sin (-x * π / 180) - Real.sin (-y * π / 180)| /
      (Real.cos (o.lat * π / 180) * Real.cos ((solar ((jdn o.date : Int) : ℝ)).declRad)) ≤
      (π / 180 * |x - y|) / (1 / 100) := by
        apply div_le_div (by positivity) (le_trans hs harg.le) (by norm_num) hden
    _ = π / 180 * |x - y| * 100 := by ring

lemma riseTime_lipschitz (o : Observation)
    (hden : 1 / 100 ≤ Real.cos (o.lat * π / 180) *
      Real.cos ((solar ((jdn o.date : Int) : ℝ)).declRad))
    (hvalid : ∀ a, 10 ≤ a → a ≤ 22 →
      |cosHof ((jdn o.date : Int) : ℝ) o.lat (-a)| ≤ 9 / 10)
    {x y : ℝ} (hx1 : 10 ≤ x) (hx2 : x ≤ 22) (hy1 : 10 ≤ y) (hy2 : y ≤ 22) :
    |riseTime o x - riseTime o y| ≤ 16 * |x - y| := by
  have hpi := Real.pi_pos
  have hpine : π ≠ 0 := ne_of_gt hpi
  have hcd := cosHof_diff_abs_le o hden x y
  have harc := arccos_lipschitz_on (cosHof ((jdn o.date : Int) : ℝ) o.lat (-x))
    (cosHof ((jdn o.date : Int) : ℝ) o.lat (-y)) (hvalid x hx1 hx2) (hvalid y hy1 hy2)
  have hr : riseTime o x - riseTime o y =
      (Real.arccos (cosHof ((jdn o.date : Int) : ℝ) o.lat (-y)) -
        Real.arccos (cosHof ((jdn o.date : Int) : ℝ) o.lat (-x))) * (12 / π) := by
    unfold riseTime
    field_simp
    ring
  rw [hr, abs_mul, abs_of_pos (by positivity : (0:ℝ) < 12 / π)]
  have hstep : |Real.arccos (cosHof ((jdn o.date : Int) : ℝ) o.lat (-y)) -
      Real.arccos (cosHof ((jdn o.date : Int) : ℝ) o.lat (-x))| ≤
      12 / 5 * (π / 180 * |x - y| * 100) := by
    rw [abs_sub_comm]
    refine le_trans harc ?_
    exact mul_le_mul_of_nonneg_left hcd (by norm_num)
  calc |Real.arccos (cosHof ((jdn o.date : Int) : ℝ) o.lat (-y)) -
      Real.arccos (cosHof ((jdn o.date : Int) : ℝ) o.lat (-x))| * (12 / π) ≤
      (12 / 5 * (π / 180 * |x - y| * 100)) * (12 / π) := by
        exact mul_le_mul_of_nonneg_right hstep (by positivity)
    _ = 16 * |x - y| := by
        field_simp
        ring

lemma setTime_lipschitz (o : Observation)
    (hden : 1 / 100 ≤ Real.cos (o.lat * π / 180) *
      Real.cos ((solar ((jdn o.date : Int) : ℝ)).declRad))
    (hvalid : ∀ a, 10 ≤ a → a ≤ 22 →
      |cosHof ((jdn o.date : Int) : ℝ) o.lat (-a)| ≤ 9 / 10)
    {x y : ℝ} (hx1 : 10 ≤ x) (hx2 : x ≤ 22) (hy1 : 10 ≤ y) (hy2 : y ≤ 22) :
    |setTime o x - setTime o y| ≤ 16 * |x - y| := by
  have hpi := Real.pi_pos
  have hpine : π ≠ 0 := ne_of_gt hpi
  have hcd := cosHof_diff_abs_le o hden x y
  have harc := arccos_lipschitz_on (cosHof ((jdn o.date : Int) : ℝ) o.lat (-x))
    (cosHof ((jdn o.date : Int) : ℝ) o.lat (-y)) (hvalid x hx1 hx2) (hvalid y hy1 hy2)
  have hr : setTime o x - setTime o y =
      (Real.arccos (cosHof ((jdn o.date : Int) : ℝ) o.lat (-x)) -
        Real.arccos (cosHof ((jdn o.date : Int) : ℝ) o.lat (-y))) * (12 / π) := by
    unfold setTime
    field_simp
    ring
  rw [hr, abs_mul, abs_of_pos (by positivity : (0:ℝ) < 12 / π)]
  have hstep : |Real.arccos (cosHof ((jdn o.date : Int) : ℝ) o.lat (-x)) -
      Real.arccos (cosHof ((jdn o.date : Int) : ℝ) o.lat (-y))| ≤
      12 / 5 * (π / 180 * |x - y| * 100) := by
    refine le_trans harc ?_
    exact mul_le_mul_of_nonneg_left hcd (by norm_num)
  calc |Real.arccos (cosHof ((jdn o.date : Int) : ℝ) o.lat (-x)) -
      Real.arccos (cosHof ((jdn o.date : Int) : ℝ) o.lat (-y))| * (12 / π) ≤
      (12 / 5 * (π / 180 * |x - y| * 100)) * (12 / π) := by
        exact mul_le_mul_of_nonneg_right hstep (by positivity)
    _ = 16 * |x - y| := by
        field_simp
        ring

/-! ### Loss shape on synthetically generated observations -/

lemma fajrResidual_eval (o : Observation) (θ a : ℝ)
    (hfajr : o.fajr = some (riseTime o θ))
    (h1 : -1 ≤ cosHof ((jdn o.date : Int) : ℝ) o.lat (-a))
    (h2 : cosHof ((jdn o.date : Int) : ℝ) o.lat (-a) ≤ 1) :
    fajrResidual o a = some ((riseTime o a - riseTime o θ) * 60) := by
  unfold fajrResidual
  rw [hfajr, predictFajr_eq_riseTime o a h1 h2]

lemma ishaResidual_eval (o : Observation) (θ a : ℝ)
    (hisha : o.isha = some (setTime o θ))
    (h1 : -1 ≤ cosHof ((jdn o.date : Int) : ℝ) o.lat (-a))
    (h2 : cosHof ((jdn o.date : Int) : ℝ) o.lat (-a) ≤ 1) :
    ishaResidual o a = some ((setTime o a - setTime o θ) * 60) := by
  unfold ishaResidual
  rw [hisha, predictIsha_eq_setTime o a h1 h2]

lemma fajrTerm_eval (o : Observation) (θ a : ℝ)
    (hfajr : o.fajr = some (riseTime o θ))
    (h1 : -1 ≤ cosHof ((jdn o.date : Int) : ℝ) o.lat (-a))
    (h2 : cosHof ((jdn o.date : Int) : ℝ) o.lat (-a) ≤ 1) :
    fajrTerm a o = o.weight.getD 1 *
      (((riseTime o a - riseTime o θ) * 60) * ((riseTime o a - riseTime o θ) * 60)) := by
  unfold fajrTerm
  rw [fajrResidual_eval o θ a hfajr h1 h2]

lemma ishaTerm_eval (o : Observation) (θ a : ℝ)
    (hisha : o.isha = some (setTime o θ))
    (h1 : -1 ≤ cosHof ((jdn o.date : Int) : ℝ) o.lat (-a))
    (h2 : cosHof ((jdn o.date : Int) : ℝ) o.lat (-a) ≤ 1) :
    ishaTerm a o = o.weight.getD 1 *
      (((setTime o a - setTime o θ) * 60) * ((setTime o a - setTime o θ) * 60)) := by
  unfold ishaTerm
  rw [ishaResidual_eval o θ a hisha h1 h2]

lemma map_sum_le_of_pointwise (t s : Observation → ℝ) (l : List Observation)
    (h : ∀ o ∈ l, t o ≤ s o) : (l.map t).sum ≤ (l.map s).sum := by
  induction l with
  | nil => simp
  | cons o l ih =>
    simp only [List.map_cons, List.sum_cons]
    have h1 := h o (List.mem_cons_self o l)
    have h2 := ih (fun o' ho' => h o' (List.mem_cons_of_mem o ho'))
    linarith

lemma foldl_add_lt_of_pointwise (t s : Observation → ℝ) (l : List Observation) (hne : l ≠ [])
    (h : ∀ o ∈ l, t o < s o) :
    l.foldl (fun acc o => acc + t o) 0 < l.foldl (fun acc o => acc + s o) 0 := by
  rw [foldl_add_eq_sum, foldl_add_eq_sum, zero_add, zero_add]
  cases l with
  | nil => exact absurd rfl hne
  | cons o l =>
    simp only [List.map_cons, List.sum_cons]
    have h1 := h o (List.mem_cons_self o l)
    have h2 := map_sum_le_of_pointwise t s l
      (fun o' ho' => le_of_lt (h o' (List.mem_cons_of_mem o ho')))
    linarith

lemma fajrLoss_unimodal (obs : List Observation) (θ : ℝ) (hθ1 : 10 ≤ θ) (hθ2 : θ ≤ 22)
    (hne : obs ≠ [])
    (hfajr : ∀ o ∈ obs, o.fajr = some (riseTime o θ))
    (hvalid : ∀ o ∈ obs, ∀ a, 10 ≤ a → a ≤ 22 →
      |cosHof ((jdn o.date : Int) : ℝ) o.lat (-a)| ≤ 9 / 10)
    (hden : ∀ o ∈ obs, 0 < Real.cos (o.lat * π / 180) *
      Real.cos ((solar ((jdn o.date : Int) : ℝ)).declRad))
    (hw : ∀ o ∈ obs, 0 < o.weight.getD 1) :
    StrictUnimodalOn (fajrLoss obs) 10 22 θ := by
  have hterm : ∀ o ∈ obs, ∀ a, 10 ≤ a → a ≤ 22 → fajrTerm a o = o.weight.getD 1 *
      (((riseTime o a - riseTime o θ) * 60) * ((riseTime o a - riseTime o θ) * 60)) := by
    intro o ho a h1 h2
    obtain ⟨hv1, hv2⟩ := abs_le.mp (hvalid o ho a h1 h2)
    exact fajrTerm_eval o θ a (hfajr o ho) (by linarith) (by linarith)
  constructor
  · intro x y hx hxy hyθ
    apply foldl_add_lt_of_pointwise _ _ obs hne
    intro o ho
    have hy22 : y ≤ 22 := le_trans hyθ hθ2
    rw [hterm o ho y (by linarith) hy22, hterm o ho x hx (by linarith)]
    have hgxy : riseTime o y < riseTime o x :=
      riseTime_strict_anti o (hden o ho) (hvalid o ho) hx hxy hy22
    have hgyθ : riseTime o θ ≤ riseTime o y := by
      rcases eq_or_lt_of_le hyθ with heq | hlt
      · rw [heq]
      · exact le_of_lt (riseTime_strict_anti o (hden o ho) (hvalid o ho)
          (by linarith) hlt hθ2)
    have hwo := hw o ho
    apply mul_lt_mul_of_pos_left ?_ hwo
    nlinarith [mul_pos (sub_pos.mpr hgxy)
      (show (0:ℝ) < (riseTime o x - riseTime o θ) + (riseTime o y - riseTime o θ) by linarith)]
  · intro x y hθx hxy hy22
    apply foldl_add_lt_of_pointwise _ _ obs hne
    intro o ho
    have hx10 : 10 ≤ x := le_trans hθ1 hθx
    rw [hterm o ho x hx10 (by linarith), hterm o ho y (by linarith) hy22]
    have hgxy : riseTime o y < riseTime o x :=
      riseTime_strict_anti o (hden o ho) (hvalid o ho) hx10 hxy hy22
    have hgxθ : riseTime o x ≤ riseTime o θ := by
      rcases eq_or_lt_of_le hθx with heq | hlt
      · rw [heq]
      · exact le_of_lt (riseTime_strict_anti o (hden o ho) (hvalid o ho) hθ1 hlt
          (by linarith))
    have hwo := hw o ho
    apply mul_lt_mul_of_pos_left ?_ hwo
    nlinarith [mul_pos (sub_pos.mpr hgxy)
      (show (0:ℝ) < -((riseTime o x - riseTime o θ) + (riseTime o y - riseTime o θ)) by
        linarith)]

lemma ishaLoss_unimodal (obs : List Observation) (θ : ℝ) (hθ1 : 10 ≤ θ) (hθ2 : θ ≤ 22)
    (hne : obs ≠ [])
    (hisha : ∀ o ∈ obs, o.isha = some (setTime o θ))
    (hvalid : ∀ o ∈ obs, ∀ a, 10 ≤ a → a ≤ 22 →
      |cosHof ((jdn o.date : Int) : ℝ) o.lat (-a)| ≤ 9 / 10)
    (hden : ∀ o ∈ obs, 0 < Real.cos (o.lat * π / 180) *
      Real.cos ((solar ((jdn o.date : Int) : ℝ)).declRad))
    (hw : ∀ o ∈ obs, 0 < o.weight.getD 1) :
    StrictUnimodalOn (ishaLoss obs) 10 22 θ := by
  have hterm : ∀ o ∈ obs, ∀ a, 10 ≤ a → a ≤ 22 → ishaTerm a o = o.weight.getD 1 *
      (((setTime o a - setTime o θ) * 60) * ((setTime o a - setTime o θ) * 60)) := by
    intro o ho a h1 h2
    obtain ⟨hv1, hv2⟩ := abs_le.mp (hvalid o ho a h1 h2)
    exact ishaTerm_eval o θ a (hisha o ho) (by linarith) (by linarith)
  constructor
  · intro x y hx hxy hyθ
    apply foldl_add_lt_of_pointwise _ _ obs hne
    intro o ho
    have hy22 : y ≤ 22 := le_trans hyθ hθ2
    rw [hterm o ho y (by linarith) hy22, hterm o ho x hx (by linarith)]
    have hgxy : setTime o x < setTime o y :=
      setTime_strict_mono o (hden o ho) (hvalid o ho) hx hxy hy22
    have hgyθ : setTime o y ≤ setTime o θ := by
      rcases eq_or_lt_of_le hyθ with heq | hlt
      · rw [heq]
      · exact le_of_lt (setTime_strict_mono o (hden o ho) (hvalid o ho)
          (by linarith) hlt hθ2)
    have hwo := hw o ho
    apply mul_lt_mul_of_pos_left ?_ hwo
    nlinarith [mul_pos (sub_pos.mpr hgxy)
      (show (0:ℝ) < -((setTime o x - setTime o θ) + (setTime o y - setTime o θ)) by
        linarith)]
  · intro x y hθx hxy hy22
    apply foldl_add_lt_of_pointwise _ _ obs hne
    intro o ho
    have hx10 : 10 ≤ x := le_trans hθ1 hθx
    rw [hterm o ho x hx10 (by linarith), hterm o ho y (by linarith) hy22]
    have hgxy : setTime o x < setTime o y :=
      setTime_strict_mono o (hden o ho) (hvalid o ho) hx10 hxy hy22
    have hgθx : setTime o θ ≤ setTime o x := by
      rcases eq_or_lt_of_le hθx with heq | hlt
      · rw [heq]
      · exact le_of_lt (setTime_strict_mono o (hden o ho) (hvalid o ho) hθ1 hlt
          (by linarith))
    have hwo := hw o ho
    apply mul_lt_mul_of_pos_left ?_ hwo
    nlinarith [mul_pos (sub_pos.mpr hgxy)
      (show (0:ℝ) < (setTime o x - setTime o θ) + (setTime o y - setTime o θ) by linarith)]

lemma calib_foldl_ss_bound (fa ia B : ℝ) :
    ∀ (l : List Observation),
      (∀ o ∈ l, 0 ≤ o.weight.getD 1 ∧
        (∀ v, fajrResidual o fa = some v → |v| ≤ B) ∧
        (∀ v, ishaResidual o ia = some v → |v| ≤ B)) →
      ∀ acc : CalibAcc, acc.totalWeightedSS ≤ B ^ 2 * acc.totalWeight →
        0 ≤ acc.totalWeight →
        (l.foldl (calibStep fa ia) acc).totalWeightedSS ≤
            B ^ 2 * (l.foldl (calibStep fa ia) acc).totalWeight ∧
          0 ≤ (l.foldl (calibStep fa ia) acc).totalWeight := by
  intro l
  induction l with
  | nil => intro _ acc h1 h2; exact ⟨h1, h2⟩
  | cons o l ih =>
    intro h acc h1 h2
    obtain ⟨hw0, hf, hi⟩ := h o (List.mem_cons_self o l)
    have hfSS : optSS (fajrResidual o fa) (o.weight.getD 1) ≤
        B ^ 2 * optW (fajrResidual o fa) (o.weight.getD 1) ∧
        0 ≤ optW (fajrResidual o fa) (o.weight.getD 1) := by
      cases hfr : fajrResidual o fa with
      | none => simp [optSS, optW]
      | some v =>
        obtain ⟨hv1, hv2⟩ := abs_le.mp (hf v hfr)
        simp only [optSS, optW]
        constructor
        · nlinarith [mul_nonneg (mul_nonneg hw0 (show (0:ℝ) ≤ B - v by linarith))
            (show (0:ℝ) ≤ B + v by linarith)]
        · exact hw0
    have hiSS : optSS (ishaResidual o ia) (o.weight.getD 1) ≤
        B ^ 2 * optW (ishaResidual o ia) (o.weight.getD 1) ∧
        0 ≤ optW (ishaResidual o ia) (o.weight.getD 1) := by
      cases hir : ishaResidual o ia with
      | none => simp [optSS, optW]
      | some v =>
        obtain ⟨hv1, hv2⟩ := abs_le.mp (hi v hir)
        simp only [optSS, optW]
        constructor
        · nlinarith [mul_nonneg (mul_nonneg hw0 (show (0:ℝ) ≤ B - v by linarith))
            (show (0:ℝ) ≤ B + v by linarith)]
        · exact hw0
    simp only [List.foldl_cons]
    apply ih (fun o' ho' => h o' (List.mem_cons_of_mem o ho'))
    · rw [calibStep_totalWeightedSS, calibStep_totalWeight]
      nlinarith [hfSS.1, hiSS.1]
    · rw [calibStep_totalWeight]
      linarith [hfSS.2, hiSS.2]

/-- C1 amended: on a dataset synthetically generated by the predictor at a
known angle within the default bounds [10, 22] — with at least two records
on at least two distinct dates, positive weights, crossings that exist
with margin (`|cos H| ≤ 0.9`) across the whole bracket, and non-degenerate
geometry (`cos lat * cos decl ≥ 0.01`) — `calibrateAngles` with default
options succeeds and recovers the generating angle for both prayers to
within 0.1 degrees with an aggregate RMS below 0.1 minutes. -/
theorem calibrate_recovers_generating_angle
    (obs : List Observation) (θ : ℝ)
    (hlen : 2 ≤ obs.length)
    (hdates : ∃ o1 ∈ obs, ∃ o2 ∈ obs, o1.date ≠ o2.date)
    (hθ1 : 10 ≤ θ) (hθ2 : θ ≤ 22)
    (hgen : ∀ o ∈ obs, o.fajr = predictFajr o.date o.lat o.lng o.tz θ ∧
      o.isha = predictIsha o.date o.lat o.lng o.tz θ)
    (hw : ∀ o ∈ obs, 0 < o.weight.getD 1)
    (hvalid : ∀ o ∈ obs, ∀ a, 10 ≤ a → a ≤ 22 →
      |cosHof ((jdn o.date : Int) : ℝ) o.lat (-a)| ≤ 9 / 10)
    (hden : ∀ o ∈ obs, 1 / 100 ≤ Real.cos (o.lat * π / 180) *
      Real.cos ((solar ((jdn o.date : Int) : ℝ)).declRad)) :
    ∃ r, calibrateAngles obs (⟨none, none, none, none, none, none, none, none⟩ :
        CalibrationOptions) = Except.ok r ∧
      |r.angles.fajrAngle - θ| ≤ 1 / 10 ∧ |r.angles.ishaAngle - θ| ≤ 1 / 10 ∧
      r.rmsMinutes < 1 / 10 := by
  have hdenpos : ∀ o ∈ obs, 0 < Real.cos (o.lat * π / 180) *
      Real.cos ((solar ((jdn o.date : Int) : ℝ)).declRad) :=
    fun o ho => lt_of_lt_of_le (by norm_num) (hden o ho)
  have hfs : ∀ o ∈ obs, o.fajr = some (riseTime o θ) := by
    intro o ho
    obtain ⟨hv1, hv2⟩ := abs_le.mp (hvalid o ho θ hθ1 hθ2)
    rw [(hgen o ho).1]
    exact predictFajr_eq_riseTime o θ (by linarith) (by linarith)
  have his : ∀ o ∈ obs, o.isha = some (setTime o θ) := by
    intro o ho
    obtain ⟨hv1, hv2⟩ := abs_le.mp (hvalid o ho θ hθ1 hθ2)
    rw [(hgen o ho).2]
    exact predictIsha_eq_setTime o θ (by linarith) (by linarith)
  have hne : obs ≠ [] := by
    intro h
    rw [h] at hlen
    simp at hlen
  have hfilF : obs.filter (fun o => o.fajr.isSome) = obs := by
    apply List.filter_eq_self.mpr
    intro o ho
    rw [hfs o ho]
    rfl
  have hfilI : obs.filter (fun o => o.isha.isSome) = obs := by
    apply List.filter_eq_self.mpr
    intro o ho
    rw [his o ho]
    rfl
  have hcond : ¬((obs.filter fun o => o.fajr.isSome).length < 2 ∧
      (obs.filter fun o => o.isha.isSome).length < 2) := by
    intro hcontra
    rw [hfilF] at hcontra
    omega
  have huniF := fajrLoss_unimodal obs θ hθ1 hθ2 hne hfs hvalid hdenpos hw
  have huniI := ishaLoss_unimodal obs θ hθ1 hθ2 hne his hvalid hdenpos hw
  have hsmall : (1e-5 : ℝ) ≤ 1 / 10 := by norm_num
  have hgsF : |goldenSection (fajrLoss obs) 10 22 (1e-5) 200 - θ| ≤ 1e-5 := by
    have h := goldenSection_near_minimizer (fajrLoss obs) 10 22 (1e-5) 200 θ huniF hθ1 hθ2
      (by norm_num)
    have hm : max (1e-5 : ℝ) (phi ^ 200 * (22 - 10)) ≤ 1e-5 := by
      apply max_le le_rfl
      have hp := phi_pow_200_small
      nlinarith [hp]
    linarith
  have hgsI : |goldenSection (ishaLoss obs) 10 22 (1e-5) 200 - θ| ≤ 1e-5 := by
    have h := goldenSection_near_minimizer (ishaLoss obs) 10 22 (1e-5) 200 θ huniI hθ1 hθ2
      (by norm_num)
    have hm : max (1e-5 : ℝ) (phi ^ 200 * (22 - 10)) ≤ 1e-5 := by
      apply max_le le_rfl
      have hp := phi_pow_200_small
      nlinarith [hp]
    linarith
  obtain ⟨hmemF1, hmemF2⟩ :=
    Set.mem_Icc.mp (goldenSection_mem (fajrLoss obs) 10 22 (1e-5) 200 (by norm_num))
  obtain ⟨hmemI1, hmemI2⟩ :=
    Set.mem_Icc.mp (goldenSection_mem (ishaLoss obs) 10 22 (1e-5) 200 (by norm_num))
  refine ⟨_, calibrateAngles_ok_eq obs _ hcond, ?_, ?_, ?_⟩
  · dsimp only
    rw [hfilF, if_pos (by omega : 2 ≤ obs.length)]
    simp only [Option.getD_none]
    linarith [hgsF, abs_le.mp hgsF]
  · dsimp only
    rw [hfilI, if_pos (by omega : 2 ≤ obs.length)]
    simp only [Option.getD_none]
    linarith [hgsI, abs_le.mp hgsI]
  · dsimp only
    rw [hfilF, hfilI, if_pos (by omega : 2 ≤ obs.length), if_pos (by omega : 2 ≤ obs.length)]
    simp only [Option.getD_none]
    have hres : ∀ o ∈ obs, 0 ≤ o.weight.getD 1 ∧
        (∀ v, fajrResidual o (goldenSection (fajrLoss obs) 10 22 (1e-5) 200) = some v →
          |v| ≤ 1 / 100) ∧
        (∀ v, ishaResidual o (goldenSection (ishaLoss obs) 10 22 (1e-5) 200) = some v →
          |v| ≤ 1 / 100) := by
      intro o ho
      refine ⟨le_of_lt (hw o ho), ?_, ?_⟩
      · intro v hv
        obtain ⟨hva1, hva2⟩ := abs_le.mp (hvalid o ho _ hmemF1 hmemF2)
        rw [fajrResidual_eval o θ _ (hfs o ho) (by linarith) (by linarith)] at hv
        have hveq := Option.some.inj hv
        have hlip := riseTime_lipschitz o (hden o ho) (hvalid o ho) hmemF1 hmemF2 hθ1 hθ2
        rw [hveq.symm, abs_mul, abs_of_pos (by norm_num : (0:ℝ) < 60)]
        have habs := abs_le.mp hgsF
        have h16 : |riseTime o (goldenSection (fajrLoss obs) 10 22 (1e-5) 200) -
            riseTime o θ| ≤ 16 * (1e-5) := by
          refine le_trans hlip ?_
          have := abs_le.mpr ⟨habs.1, habs.2⟩
          nlinarith [this]
        nlinarith [h16, abs_nonneg (riseTime o (goldenSection (fajrLoss obs) 10 22
          (1e-5) 200) - riseTime o θ)]
      · intro v hv
        obtain ⟨hva1, hva2⟩ := abs_le.mp (hvalid o ho _ hmemI1 hmemI2)
        rw [ishaResidual_eval o θ _ (his o ho) (by linarith) (by linarith)] at hv
        have hveq := Option.some.inj hv
        have hlip := setTime_lipschitz o (hden o ho) (hvalid o ho) hmemI1 hmemI2 hθ1 hθ2
        rw [hveq.symm, abs_mul, abs_of_pos (by norm_num : (0:ℝ) < 60)]
        have habs := abs_le.mp hgsI
        have h16 : |setTime o (goldenSection (ishaLoss obs) 10 22 (1e-5) 200) -
            setTime o θ| ≤ 16 * (1e-5) := by
          refine le_trans hlip ?_
          have := abs_le.mpr ⟨habs.1, habs.2⟩
          nlinarith [this]
        nlinarith [h16, abs_nonneg (setTime o (goldenSection (ishaLoss obs) 10 22
          (1e-5) 200) - setTime o θ)]
    have hinit1 : (({} : CalibAcc)).totalWeightedSS ≤
        ((1:ℝ) / 100) ^ 2 * (({} : CalibAcc)).totalWeight := by
      show (0:ℝ) ≤ ((1:ℝ) / 100) ^ 2 * 0
      norm_num
    have hinit2 : (0:ℝ) ≤ (({} : CalibAcc)).totalWeight := le_refl 0
    obtain ⟨hSS, hW⟩ := calib_foldl_ss_bound
      (goldenSection (fajrLoss obs) 10 22 (1e-5) 200)
      (goldenSection (ishaLoss obs) 10 22 (1e-5) 200) (1 / 100) obs hres
      ({} : CalibAcc) hinit1 hinit2
    by_cases hWpos : (obs.foldl (calibStep
        (goldenSection (fajrLoss obs) 10 22 (1e-5) 200)
        (goldenSection (ishaLoss obs) 10 22 (1e-5) 200)) ({} : CalibAcc)).totalWeight > 0
    · rw [if_pos hWpos]
      have hdiv : (obs.foldl (calibStep
          (goldenSection (fajrLoss obs) 10 22 (1e-5) 200)
          (goldenSection (ishaLoss obs) 10 22 (1e-5) 200))
            ({} : CalibAcc)).totalWeightedSS /
          (obs.foldl (calibStep
            (goldenSection (fajrLoss obs) 10 22 (1e-5) 200)
            (goldenSection (ishaLoss obs) 10 22 (1e-5) 200))
              ({} : CalibAcc)).totalWeight ≤ ((1:ℝ) / 100) ^ 2 := by
        rw [div_le_iff hWpos]
        linarith [hSS]
      have hsq := Real.sqrt_le_sqrt hdiv
      rw [Real.sqrt_sq (by norm_num : (0:ℝ) ≤ 1 / 100)] at hsq
      linarith
    · rw [if_neg hWpos]
      norm_num

lemma jdn_20240715_bounds :
    (2451545:ℝ) ≤ ((jdn ⟨2024, 7, 15⟩ : Int) : ℝ) ∧ ((jdn ⟨2024, 7, 15⟩ : Int) : ℝ) ≤ 2488070 := by
  constructor
  · exact_mod_cast (by decide : (2451545 : Int) ≤ jdn ⟨2024, 7, 15⟩)
  · exact_mod_cast (by decide : jdn ⟨2024, 7, 15⟩ ≤ (2488070 : Int))

/-- Witness for the amended C1: two dual observations generated by the
predictor at angle 15 on two dates at the equator; calibration with
default options recovers 15 degrees for both angles with RMS below 0.1
minutes. -/
theorem calibrate_recovers_generating_angle_witness :
    (2 ≤ [synthObs1, synthObs2].length ∧
      (∃ o1 ∈ [synthObs1, synthObs2], ∃ o2 ∈ [synthObs1, synthObs2], o1.date ≠ o2.date) ∧
      (10:ℝ) ≤ 15 ∧ (15:ℝ) ≤ 22 ∧
      (∀ o ∈ [synthObs1, synthObs2], o.fajr = predictFajr o.date o.lat o.lng o.tz 15 ∧
        o.isha = predictIsha o.date o.lat o.lng o.tz 15) ∧
      (∀ o ∈ [synthObs1, synthObs2], 0 < o.weight.getD 1) ∧
      (∀ o ∈ [synthObs1, synthObs2], ∀ a, 10 ≤ a → a ≤ 22 →
        |cosHof ((jdn o.date : Int) : ℝ) o.lat (-a)| ≤ 9 / 10) ∧
      (∀ o ∈ [synthObs1, synthObs2], 1 / 100 ≤ Real.cos (o.lat * π / 180) *
        Real.cos ((solar ((jdn o.date : Int) : ℝ)).declRad))) ∧
    (∃ r, calibrateAngles [synthObs1, synthObs2]
        (⟨none, none, none, none, none, none, none, none⟩ : CalibrationOptions) =
          Except.ok r ∧
      |r.angles.fajrAngle - 15| ≤ 1 / 10 ∧ |r.angles.ishaAngle - 15| ≤ 1 / 10 ∧
      r.rmsMinutes < 1 / 10) := by
  obtain ⟨hj11, hj12⟩ := jdn_20240115_bounds
  obtain ⟨hj21, hj22⟩ := jdn_20240715_bounds
  have hlen : 2 ≤ [synthObs1, synthObs2].length := le_refl 2
  have hdates : ∃ o1 ∈ [synthObs1, synthObs2], ∃ o2 ∈ [synthObs1, synthObs2],
      o1.date ≠ o2.date := by
    refine ⟨synthObs1, List.mem_cons_self _ _, synthObs2,
      List.mem_cons_of_mem _ (List.mem_cons_self _ _), ?_⟩
    intro h
    exact absurd (congrArg ObsDate.month h) (by decide)
  have hgen : ∀ o ∈ [synthObs1, synthObs2],
      o.fajr = predictFajr o.date o.lat o.lng o.tz 15 ∧
      o.isha = predictIsha o.date o.lat o.lng o.tz 15 := by
    intro o ho
    rcases List.mem_cons.mp ho with rfl | ho2
    · exact ⟨rfl, rfl⟩
    · rcases List.mem_cons.mp ho2 with rfl | ho3
      · exact ⟨rfl, rfl⟩
      · cases ho3
  have hw : ∀ o ∈ [synthObs1, synthObs2], 0 < o.weight.getD 1 := by
    intro o ho
    rcases List.mem_cons.mp ho with rfl | ho2
    · exact one_pos
    · rcases List.mem_cons.mp ho2 with rfl | ho3
      · exact one_pos
      · cases ho3
  have hvalid : ∀ o ∈ [synthObs1, synthObs2], ∀ a, 10 ≤ a → a ≤ 22 →
      |cosHof ((jdn o.date : Int) : ℝ) o.lat (-a)| ≤ 9 / 10 := by
    intro o ho a ha1 ha2
    rcases List.mem_cons.mp ho with rfl | ho2
    · exact le_trans (cosHof_equator_abs_le ((jdn (⟨2024, 1, 15⟩ : ObsDate) : Int) : ℝ) a
        hj11 hj12 (by linarith) ha2) (by norm_num)
    · rcases List.mem_cons.mp ho2 with rfl | ho3
      · exact le_trans (cosHof_equator_abs_le ((jdn (⟨2024, 7, 15⟩ : ObsDate) : Int) : ℝ) a
          hj21 hj22 (by linarith) ha2) (by norm_num)
      · cases ho3
  have hden : ∀ o ∈ [synthObs1, synthObs2], 1 / 100 ≤ Real.cos (o.lat * π / 180) *
      Real.cos ((solar ((jdn o.date : Int) : ℝ)).declRad) := by
    intro o ho
    rcases List.mem_cons.mp ho with rfl | ho2
    · show (1:ℝ) / 100 ≤ Real.cos ((0:ℝ) * π / 180) *
        Real.cos ((solar ((jdn (⟨2024, 1, 15⟩ : ObsDate) : Int) : ℝ)).declRad)
      rw [cos_lat_zero, one_mul]
      linarith [cos_decl_ge hj11 hj12]
    · rcases List.mem_cons.mp ho2 with rfl | ho3
      · show (1:ℝ) / 100 ≤ Real.cos ((0:ℝ) * π / 180) *
          Real.cos ((solar ((jdn (⟨2024, 7, 15⟩ : ObsDate) : Int) : ℝ)).declRad)
        rw [cos_lat_zero, one_mul]
        linarith [cos_decl_ge hj21 hj22]
      · cases ho3
  refine ⟨⟨hlen, hdates, by norm_num, by norm_num, hgen, hw, hvalid, hden⟩, ?_⟩
  exact calibrate_recovers_generating_angle [synthObs1, synthObs2] 15 hlen hdates
    (by norm_num) (by norm_num) hgen hw hvalid hden

/-! ### Polar June window: the predictor yields the sentinel at 85 N -/

lemma jsRem_of_bounds (a b : ℝ) (k : Int) (hb : 0 < b) (hlo : (k:ℝ) * b ≤ a)
    (hhi : a < ((k:ℝ) + 1) * b) (hk : 0 ≤ (k:ℝ)) : jsRem a b = a - b * (k:ℝ) := by
  unfold jsRem
  have hq1 : (k:ℝ) ≤ a / b := by
    rw [le_div_iff hb]
    linarith
  have hq2 : a / b < (k:ℝ) + 1 := by
    rw [div_lt_iff hb]
    linarith
  have hfl : ⌊a / b⌋ = k := by
    apply Int.floor_eq_iff.mpr
    constructor
    · exact hq1
    · push_cast
      linarith
  have hpos : 0 ≤ a / b := le_trans hk hq1
  rw [if_pos hpos, hfl]

lemma solarL0_june2024 {jd : ℝ} (h1 : 2460480 ≤ jd) (h2 : jd ≤ 2460483) :
    85 ≤ solarL0 jd ∧ solarL0 jd ≤ 92 := by
  have hT1 : (8935:ℝ) / 36525 ≤ solarT jd := by
    unfold solarT
    rw [div_le_div_iff (by norm_num) (by norm_num)]
    linarith
  have hT2 : solarT jd ≤ (8938:ℝ) / 36525 := by
    unfold solarT
    rw [div_le_div_iff (by norm_num) (by norm_num)]
    linarith
  have hT0 : (0:ℝ) ≤ solarT jd := by
    apply le_trans _ hT1
    norm_num
  have hTsq : solarT jd * solarT jd ≤ 1 := by nlinarith
  have hX1 : (9086:ℝ) ≤ 280.46646 + solarT jd * (36000.76983 + solarT jd * 0.0003032) := by
    nlinarith [mul_nonneg hT0 hT0]
  have hX2 : 280.46646 + solarT jd * (36000.76983 + solarT jd * 0.0003032) < 9091 := by
    nlinarith
  unfold solarL0
  rw [jsRem_of_bounds _ _ 25 (by norm_num) (by push_cast; linarith)
    (by push_cast; linarith) (by norm_num)]
  push_cast
  constructor <;> linarith

lemma solarC_abs_le (jd : ℝ) (hT0 : 0 ≤ solarT jd) (hT1 : solarT jd ≤ 1) :
    |solarC jd| ≤ 2 := by
  unfold solarC
  have hs1 : |Real.sin (solarMrad jd)| ≤ 1 :=
    abs_le.mpr ⟨Real.neg_one_le_sin _, Real.sin_le_one _⟩
  have hs2 : |Real.sin (2 * solarMrad jd)| ≤ 1 :=
    abs_le.mpr ⟨Real.neg_one_le_sin _, Real.sin_le_one _⟩
  have hs3 : |Real.sin (3 * solarMrad jd)| ≤ 1 :=
    abs_le.mpr ⟨Real.neg_one_le_sin _, Real.sin_le_one _⟩
  have key : ∀ (s c bound : ℝ), |s| ≤ 1 → 0 ≤ bound → |c| ≤ bound → |s * c| ≤ bound := by
    intro s c bound hs hb hc
    rw [abs_mul]
    calc |s| * |c| ≤ 1 * bound := mul_le_mul hs hc (abs_nonneg _) (by norm_num)
      _ = bound := one_mul bound
  have hc1 : |(1.914602:ℝ) - solarT jd * (0.004817 + 0.000014 * solarT jd)| ≤ 1.92 := by
    rw [abs_of_nonneg (by nlinarith)]
    nlinarith
  have hc2 : |(0.019993:ℝ) - 0.000101 * solarT jd| ≤ 0.02 := by
    rw [abs_of_nonneg (by nlinarith)]
    nlinarith
  have hc3 : |(0.000289:ℝ)| ≤ 0.000289 := by
    rw [abs_of_nonneg (by norm_num : (0:ℝ) ≤ 0.000289)]
  have hp1 := key _ _ _ hs1 (by norm_num) hc1
  have hp2 := key _ _ _ hs2 (by norm_num) hc2
  have hp3 := key _ _ _ hs3 (by norm_num) hc3
  have t1 := abs_add
    (Real.sin (solarMrad jd) * ((1.914602:ℝ) - solarT jd * (0.004817 + 0.000014 * solarT jd)) +
      Real.sin (2 * solarMrad jd) * ((0.019993:ℝ) - 0.000101 * solarT jd))
    (Real.sin (3 * solarMrad jd) * (0.000289:ℝ))
  have t2 := abs_add
    (Real.sin (solarMrad jd) * ((1.914602:ℝ) - solarT jd * (0.004817 + 0.000014 * solarT jd)))
    (Real.sin (2 * solarMrad jd) * ((0.019993:ℝ) - 0.000101 * solarT jd))
  linarith

lemma solarLambda_june_bounds {jd : ℝ} (h1 : 2460480 ≤ jd) (h2 : jd ≤ 2460483) :
    82 ≤ solarLambda jd ∧ solarLambda jd ≤ 95 := by
  obtain ⟨hT0, hT1⟩ := solarT_bounds (by linarith : (2451545:ℝ) ≤ jd) (by linarith)
  obtain ⟨hL1, hL2⟩ := solarL0_june2024 h1 h2
  obtain ⟨hC1, hC2⟩ := abs_le.mp (solarC_abs_le jd hT0 hT1)
  have hsb : |Real.sin (solarOmega jd * π / 180)| ≤ 1 :=
    abs_le.mpr ⟨Real.neg_one_le_sin _, Real.sin_le_one _⟩
  obtain ⟨hs1, hs2⟩ := abs_le.mp hsb
  unfold solarLambda
  constructor <;> nlinarith

lemma sin_decl_nonneg_june {jd : ℝ} (h1 : 2460480 ≤ jd) (h2 : jd ≤ 2460483) :
    0 ≤ Real.sin ((solar jd).declRad) := by
  obtain ⟨hT0, hT1⟩ := solarT_bounds (by linarith : (2451545:ℝ) ≤ jd) (by linarith)
  obtain ⟨he1, he2⟩ := solarEpsRad_bounds hT0 hT1
  obtain ⟨hlam1, hlam2⟩ := solarLambda_june_bounds h1 h2
  have hpi4 := Real.pi_gt_d4
  have hpi4u := Real.pi_lt_d4
  have hpipos := Real.pi_pos
  have hsinEps : 0 ≤ Real.sin (solarEps jd * π / 180) :=
    Real.sin_nonneg_of_nonneg_of_le_pi (by linarith) (by linarith)
  have hlamr1 : 0 ≤ solarLambda jd * π / 180 := by
    apply div_nonneg _ (by norm_num)
    exact mul_nonneg (by linarith) hpipos.le
  have hlamr2 : solarLambda jd * π / 180 ≤ π := by
    rw [div_le_iff (by norm_num : (0:ℝ) < 180)]
    nlinarith
  have hsinlam : 0 ≤ Real.sin (solarLambda jd * π / 180) :=
    Real.sin_nonneg_of_nonneg_of_le_pi hlamr1 hlamr2
  have habs := sin_decl_abs_le hT0 hT1
  obtain ⟨hb1, hb2⟩ := abs_le.mp habs
  rw [solar_declRad_eq, Real.sin_arcsin (by linarith) (by linarith)]
  exact mul_nonneg hsinEps hsinlam

lemma cos_85_le : Real.cos ((85:ℝ) * π / 180) ≤ 1 / 10 := by
  have h : (85:ℝ) * π / 180 = π / 2 - 5 * π / 180 := by ring
  rw [h, Real.cos_pi_div_two_sub]
  have hb := @Real.abs_sin_le_abs (5 * π / 180)
  have hpos : (0:ℝ) ≤ 5 * π / 180 := by positivity
  rw [abs_of_nonneg hpos] at hb
  have hs := le_abs_self (Real.sin (5 * π / 180))
  have hpi := Real.pi_lt_d4
  linarith

lemma cos_85_pos : 0 < Real.cos ((85:ℝ) * π / 180) := by
  have hpi := Real.pi_pos
  apply Real.cos_pos_of_mem_Ioo
  constructor
  · nlinarith
  · nlinarith

lemma sin_85_nonneg : 0 ≤ Real.sin ((85:ℝ) * π / 180) := by
  have hpi := Real.pi_pos
  apply Real.sin_nonneg_of_nonneg_of_le_pi
  · positivity
  · nlinarith

lemma sin_15_ge : (1:ℝ) / 4 ≤ Real.sin ((15:ℝ) * π / 180) := by
  have hpi1 := Real.pi_gt_d4
  have hpi2 := Real.pi_lt_d4
  have hx1 : (2617:ℝ) / 10000 ≤ 15 * π / 180 := by nlinarith
  have hx2 : (15:ℝ) * π / 180 ≤ 262 / 1000 := by nlinarith
  have hx0 : (0:ℝ) ≤ 15 * π / 180 := by linarith
  have h := Real.sin_gt_sub_cube (by linarith : (0:ℝ) < 15 * π / 180)
    (by linarith : (15:ℝ) * π / 180 ≤ 1)
  have hxx : (15 * π / 180) * (15 * π / 180) ≤ (262 / 1000 : ℝ) * (262 / 1000) :=
    mul_le_mul hx2 hx2 hx0 (by norm_num)
  have hxxx : (15 * π / 180) * (15 * π / 180) * (15 * π / 180) ≤
      (262 / 1000 : ℝ) * (262 / 1000) * (262 / 1000) :=
    mul_le_mul hxx hx2 hx0 (by norm_num)
  have hcube : (15 * π / 180) ^ 3 = (15 * π / 180) * (15 * π / 180) * (15 * π / 180) := by
    ring
  rw [hcube] at h
  nlinarith

lemma cosHof_85N_june_lt {jd : ℝ} (h1 : 2460480 ≤ jd) (h2 : jd ≤ 2460483) :
    cosHof jd 85 (-15) < -1 := by
  have hjr1 : (2451545:ℝ) ≤ jd := by linarith
  have hjr2 : jd ≤ 2488070 := by linarith
  have hdge := cos_decl_ge hjr1 hjr2
  have hdsin := sin_decl_nonneg_june h1 h2
  have hdle1 := Real.cos_le_one ((solar jd).declRad)
  have hc85 := cos_85_le
  have hc85p := cos_85_pos
  have hs85 := sin_85_nonneg
  have hsin15 := sin_15_ge
  unfold cosHof
  have hneg : Real.sin ((-15:ℝ) * π / 180) = -Real.sin ((15:ℝ) * π / 180) := by
    rw [show ((-15:ℝ) * π / 180) = -((15:ℝ) * π / 180) by ring, Real.sin_neg]
  have hnum : Real.sin ((-15:ℝ) * π / 180) -
      Real.sin ((85:ℝ) * π / 180) * Real.sin ((solar jd).declRad) ≤ -(1 / 4) := by
    rw [hneg]
    nlinarith [mul_nonneg hs85 hdsin]
  have hdenpos : 0 < Real.cos ((85:ℝ) * π / 180) * Real.cos ((solar jd).declRad) :=
    mul_pos hc85p (lt_of_lt_of_le (by norm_num) hdge)
  have hdenle : Real.cos ((85:ℝ) * π / 180) * Real.cos ((solar jd).declRad) ≤ 1 / 10 := by
    calc Real.cos ((85:ℝ) * π / 180) * Real.cos ((solar jd).declRad) ≤ (1 / 10) * 1 :=
        mul_le_mul hc85 hdle1 (by linarith) (by norm_num)
      _ = 1 / 10 := by norm_num
  rw [div_lt_iff hdenpos]
  nlinarith

lemma predictFajr_85N_june_none (d : ObsDate) (lng tz : ℝ)
    (h1 : (2460480:ℝ) ≤ ((jdn d : Int) : ℝ)) (h2 : ((jdn d : Int) : ℝ) ≤ 2460483) :
    predictFajr d 85 lng tz 15 = none := by
  unfold predictFajr
  simp only [horizonCrossing]
  rw [if_pos (Or.inl (cosHof_85N_june_lt h1 h2))]
  rfl

lemma predictIsha_85N_june_none (d : ObsDate) (lng tz : ℝ)
    (h1 : (2460480:ℝ) ≤ ((jdn d : Int) : ℝ)) (h2 : ((jdn d : Int) : ℝ) ≤ 2460483) :
    predictIsha d 85 lng tz 15 = none := by
  unfold predictIsha
  simp only [horizonCrossing]
  rw [if_pos (Or.inl (cosHof_85N_june_lt h1 h2))]
  rfl

/-- Counterexample to C1 as stated: a two-record observation set generated
by the predictor itself at angle 15 (within bounds) on two distinct June
dates at 85 degrees north.  Both generated times are the no-crossing
sentinel, so both subsets are empty and `calibrateAngles` raises the
insufficient-data error instead of returning fitted angles near 15. -/
theorem calibrate_recovery_counterexample :
    (polarObs1.fajr = predictFajr polarObs1.date polarObs1.lat polarObs1.lng polarObs1.tz 15 ∧
      polarObs1.isha = predictIsha polarObs1.date polarObs1.lat polarObs1.lng polarObs1.tz 15 ∧
      polarObs2.fajr = predictFajr polarObs2.date polarObs2.lat polarObs2.lng polarObs2.tz 15 ∧
      polarObs2.isha = predictIsha polarObs2.date polarObs2.lat polarObs2.lng polarObs2.tz 15 ∧
      polarObs1.date ≠ polarObs2.date ∧ (10:ℝ) ≤ 15 ∧ (15:ℝ) ≤ 22 ∧
      2 ≤ [polarObs1, polarObs2].length) ∧
    calibrateAngles [polarObs1, polarObs2]
      (⟨none, none, none, none, none, none, none, none⟩ : CalibrationOptions) =
      Except.error
        ("calibrateAngles: need at least 2 Fajr or 2 Isha observations (got Fajr=" ++
          toString (([polarObs1, polarObs2].filter fun o => o.fajr.isSome).length) ++
          ", Isha=" ++
          toString (([polarObs1, polarObs2].filter fun o => o.isha.isSome).length) ++ ")") := by
  have hj1a : (2460480:ℝ) ≤ ((jdn ⟨2024, 6, 18⟩ : Int) : ℝ) :=
    by exact_mod_cast (by decide : (2460480 : Int) ≤ jdn ⟨2024, 6, 18⟩)
  have hj1b : ((jdn ⟨2024, 6, 18⟩ : Int) : ℝ) ≤ 2460483 :=
    by exact_mod_cast (by decide : jdn ⟨2024, 6, 18⟩ ≤ (2460483 : Int))
  have hj2a : (2460480:ℝ) ≤ ((jdn ⟨2024, 6, 21⟩ : Int) : ℝ) :=
    by exact_mod_cast (by decide : (2460480 : Int) ≤ jdn ⟨2024, 6, 21⟩)
  have hj2b : ((jdn ⟨2024, 6, 21⟩ : Int) : ℝ) ≤ 2460483 :=
    by exact_mod_cast (by decide : jdn ⟨2024, 6, 21⟩ ≤ (2460483 : Int))
  have hf1 : predictFajr ⟨2024, 6, 18⟩ 85 0 0 15 = none :=
    predictFajr_85N_june_none _ 0 0 hj1a hj1b
  have hi1 : predictIsha ⟨2024, 6, 18⟩ 85 0 0 15 = none :=
    predictIsha_85N_june_none _ 0 0 hj1a hj1b
  have hf2 : predictFajr ⟨2024, 6, 21⟩ 85 0 0 15 = none :=
    predictFajr_85N_june_none _ 0 0 hj2a hj2b
  have hi2 : predictIsha ⟨2024, 6, 21⟩ 85 0 0 15 = none :=
    predictIsha_85N_june_none _ 0 0 hj2a hj2b
  have hfilF : ([polarObs1, polarObs2].filter fun o => o.fajr.isSome) = [] := by
    simp [polarObs1, polarObs2, List.filter, hf1, hf2]
  have hfilI : ([polarObs1, polarObs2].filter fun o => o.isha.isSome) = [] := by
    simp [polarObs1, polarObs2, List.filter, hi1, hi2]
  have hcond : ([polarObs1, polarObs2].filter fun o => o.fajr.isSome).length < 2 ∧
      ([polarObs1, polarObs2].filter fun o => o.isha.isSome).length < 2 := by
    rw [hfilF, hfilI]
    norm_num
  refine ⟨⟨rfl, rfl, rfl, rfl, ?_, by norm_num, by norm_num, le_refl 2⟩, ?_⟩
  · intro h
    exact absurd (congrArg ObsDate.day h) (by decide)
  · exact calibrateAngles_error_eq [polarObs1, polarObs2] _ hcond

end PrayCalcML
